import Mathlib

/-!
Verification of the FACT-G / FACT-E questionnaire scoring scripts
(`FACT_E_scoring.py`, `FACT_G_scoring.py`).

The scripts operate on a pandas DataFrame, one row per respondent, one
column per questionnaire item.  Every operation they perform is
elementwise per row (column arithmetic, `notna`, row-wise sums,
`np.where`), so a DataFrame is embedded as a single respondent row: an
ordered association list of column name to cell.  A cell is `Option ℚ`:
`none` models a pandas `NaN` (missing answer), `some x` a numeric entry.
pandas raises `KeyError` when a single absent column label is selected,
so column selection is `Except String`-valued, the error carrying the
offending label.  `np.where(cond, a, b)` evaluates `cond` and delivers
`a` exactly on the rows where `cond` holds; it is embedded as
`if cond then a else b` on the single row.
-/

/-- A cell of the table: `none` is pandas `NaN`, `some x` a numeric value. -/
abbrev Cell := Option ℚ

/-- A DataFrame restricted to one respondent row: ordered columns with
their cell value for that row. -/
abbrev DF := List (String × Cell)

/-- `c in df.columns`. -/
def hasCol (df : DF) (c : String) : Bool :=
  df.any (fun p => p.1 == c)

/-- The cell of column `c` (first occurrence), `none` when the column is
absent.  Only used where the column is known to be present, or where
pandas itself would deliver `NaN`. -/
def lookupCell (df : DF) (c : String) : Cell :=
  match df.find? (fun p => p.1 == c) with
  | some p => p.2
  | none => none

/-- `df[c]` for a single label `c`: the column's cell, or a `KeyError`
carrying the label when the column is absent. -/
def getCol (df : DF) (c : String) : Except String Cell :=
  match df.find? (fun p => p.1 == c) with
  | some p => .ok p.2
  | none => .error c

/-- `df[c] = v`: overwrite the column in place when present, otherwise
append it as a new last column (pandas assignment order). -/
def setCol (df : DF) (c : String) (v : Cell) : DF :=
  if hasCol df c then df.map (fun p => if p.1 == c then (c, v) else p)
  else df ++ [(c, v)]

/-- pandas `+` on two cells: `NaN` propagates. -/
def addCell (a b : Cell) : Cell :=
  match a, b with
  | some x, some y => some (x + y)
  | _, _ => none

/-- A row built from a value assignment over a given column list. -/
def mkRow (v : String → Cell) (cols : List String) : DF :=
  cols.map (fun c => (c, v c))

namespace FACT_E_scoring

/-- `[f"gp{i}" for i in range(1, 8)]` — Physical Well-Being, 7 items. -/
def pwb_cols : List String := ["gp1", "gp2", "gp3", "gp4", "gp5", "gp6", "gp7"]

/-- `[f"gs{i}" for i in range(1, 8)]` — Social/Family Well-Being, 7 items. -/
def swb_cols : List String := ["gs1", "gs2", "gs3", "gs4", "gs5", "gs6", "gs7"]

/-- `[f"ge{i}" for i in range(1, 7)]` — Emotional Well-Being, 6 items. -/
def ewb_cols : List String := ["ge1", "ge2", "ge3", "ge4", "ge5", "ge6"]

/-- `[f"gf{i}" for i in range(1, 8)]` — Functional Well-Being, 7 items. -/
def fwb_cols : List String := ["gf1", "gf2", "gf3", "gf4", "gf5", "gf6", "gf7"]

/-- Esophageal Cancer Subscale, 17 items:
`[f"a_hn{i}" for i in range(1, 6)] + ["a_hn7", "a_hn10"] +
 [f"a_e{i}" for i in range(1, 8)] + ["a_c6", "a_c2", "a_act11"]`. -/
def ecs_cols : List String :=
  ["a_hn1", "a_hn2", "a_hn3", "a_hn4", "a_hn5", "a_hn7", "a_hn10",
   "a_e1", "a_e2", "a_e3", "a_e4", "a_e5", "a_e6", "a_e7",
   "a_c6", "a_c2", "a_act11"]

/-- `[f"ge{i}" for i in range(1, 7) if i != 2]`. -/
def ewb_reverse_items : List String := ["ge1", "ge3", "ge4", "ge5", "ge6"]

/-- ECS reverse-scored items (line 97 of the script). -/
def ecs_reverse_items : List String :=
  ["a_e1", "a_e2", "a_e3", "a_e4", "a_e5", "a_e7", "a_act11", "a_c2", "a_hn2", "a_hn3"]

/-- The per-item loop of `calculate_subscale_score` (lines 34–40):
`df[f"{col}_score"] = 4 - df[col]` for reverse items, else
`df[f"{col}_score"] = df[col]`.  The Python default
`reverse_items=None` is the empty list here (both are falsy /
contain no item). -/
def itemScoresLoop (df : DF) (cols reverse_items : List String) : Except String DF :=
  cols.foldlM (fun d col => do
      let raw ← getCol d col
      let sc := if reverse_items.contains col then raw.map (fun x => (4 : ℚ) - x) else raw
      pure (setCol d (col ++ "_score") sc)) df

/-- `calculate_subscale_score` (lines 17–59): item scores, then
`np.where(num_answered >= total/2, sum * total / num_answered, nan)`
into column `f"{subscale_name}_subscale_score"`.  `total/2` is Python
true division, embedded as division in `ℚ`; `sum(axis=1, skipna=True)`
sums the non-`NaN` entries; `notna().sum(axis=1)` counts them. -/
def calculate_subscale_score (df : DF) (cols : List String) (reverse_items : List String)
    (subscale_name : String) : Except String DF := do
  let df ← itemScoresLoop df cols reverse_items
  let score_cols := cols.map (fun c => c ++ "_score")
  let vals ← score_cols.mapM (fun c => getCol df c)
  let num_answered_items : ℕ := (vals.filterMap id).length
  let total_items : ℕ := cols.length
  let min_items_required : ℚ := (total_items : ℚ) / 2
  let cell : Cell :=
    if (num_answered_items : ℚ) ≥ min_items_required then
      some ((vals.filterMap id).sum * (total_items : ℚ) / (num_answered_items : ℚ))
    else none
  pure (setCol df (subscale_name ++ "_subscale_score") cell)

/-- `fact_g_items = pwb_cols + swb_cols + ewb_cols + fwb_cols` — 27 items. -/
def fact_g_items : List String := pwb_cols ++ swb_cols ++ ewb_cols ++ fwb_cols

/-- `fact_e_items = fact_g_items + ecs_cols` — 44 items. -/
def fact_e_items : List String := fact_g_items ++ ecs_cols

/-- `toi_items = pwb_cols + fwb_cols + ecs_cols` — 31 items. -/
def toi_items : List String := pwb_cols ++ fwb_cols ++ ecs_cols

/-- `calculate_fact_e_scores` (lines 62–152): the five subscales in
script order (PWB, SWB, EWB, FWB, ECS), then `fact_g_total` (gate:
four subscales non-`NaN` and ≥ 22 of the 27 FACT-G item scores
answered), then `fact_e_total` (gate: `fact_g_total` and ECS non-`NaN`
and ≥ 36 of 44), then `toi` (gate: PWB, FWB, ECS non-`NaN` and
≥ 25 of 31). -/
def calculate_fact_e_scores (df : DF) : Except String DF := do
  let df ← calculate_subscale_score df pwb_cols pwb_cols "pwb"
  let df ← calculate_subscale_score df swb_cols [] "swb"
  let df ← calculate_subscale_score df ewb_cols ewb_reverse_items "ewb"
  let df ← calculate_subscale_score df fwb_cols [] "fwb"
  let df ← calculate_subscale_score df ecs_cols ecs_reverse_items "ecs"
  let gvals ← (fact_g_items.map (fun c => c ++ "_score")).mapM (fun c => getCol df c)
  let fact_g_num_answered : ℕ := (gvals.filterMap id).length
  let pwb ← getCol df "pwb_subscale_score"
  let swb ← getCol df "swb_subscale_score"
  let ewb ← getCol df "ewb_subscale_score"
  let fwb ← getCol df "fwb_subscale_score"
  let fact_g_cell : Cell :=
    if pwb.isSome = true ∧ swb.isSome = true ∧ ewb.isSome = true ∧ fwb.isSome = true ∧
        22 ≤ fact_g_num_answered then
      addCell (addCell (addCell pwb swb) ewb) fwb
    else none
  let df := setCol df "fact_g_total" fact_g_cell
  let evals ← (fact_e_items.map (fun c => c ++ "_score")).mapM (fun c => getCol df c)
  let fact_e_num_answered : ℕ := (evals.filterMap id).length
  let fact_g ← getCol df "fact_g_total"
  let ecs ← getCol df "ecs_subscale_score"
  let fact_e_cell : Cell :=
    if fact_g.isSome = true ∧ ecs.isSome = true ∧ 36 ≤ fact_e_num_answered then
      addCell fact_g ecs
    else none
  let df := setCol df "fact_e_total" fact_e_cell
  let tvals ← (toi_items.map (fun c => c ++ "_score")).mapM (fun c => getCol df c)
  let toi_num_answered : ℕ := (tvals.filterMap id).length
  let pwb2 ← getCol df "pwb_subscale_score"
  let fwb2 ← getCol df "fwb_subscale_score"
  let ecs2 ← getCol df "ecs_subscale_score"
  let toi_cell : Cell :=
    if pwb2.isSome = true ∧ fwb2.isSome = true ∧ ecs2.isSome = true ∧
        25 ≤ toi_num_answered then
      addCell (addCell pwb2 fwb2) ecs2
    else none
  pure (setCol df "toi" toi_cell)

/-- The fixed extraction list of `extract_fact_e_columns` (lines 166–174):
`["id"]` followed by the 44 FACT-E items in the same order as the
subscale definitions. -/
def columns_to_extract : List String := ["id"] ++ fact_e_items

/-- `extract_fact_e_columns` (lines 155–185):
`existing_columns = [c for c in columns_to_extract if c in df.columns]`,
then the projection `df[existing_columns]`. -/
def extract_fact_e_columns (df : DF) : DF :=
  mkRow (fun c => lookupCell df c) (columns_to_extract.filter (fun c => hasCol df c))

/-- The computational core of `main()` (lines 196–211): extraction
followed by scoring.  File I/O is outside the model; an `Except.error`
is the `KeyError` that `main` catches and reports with exit status 1. -/
def run_scoring (df : DF) : Except String DF :=
  calculate_fact_e_scores (extract_fact_e_columns df)

end FACT_E_scoring

namespace FACT_G_scoring

/-- `[f"gp{i}" for i in range(1, 8)]`. -/
def pwb_cols : List String := ["gp1", "gp2", "gp3", "gp4", "gp5", "gp6", "gp7"]

/-- `[f"gs{i}" for i in range(1, 8)]`. -/
def swb_cols : List String := ["gs1", "gs2", "gs3", "gs4", "gs5", "gs6", "gs7"]

/-- `[f"ge{i}" for i in range(1, 7)]`. -/
def ewb_cols : List String := ["ge1", "ge2", "ge3", "ge4", "ge5", "ge6"]

/-- `[f"gf{i}" for i in range(1, 8)]`. -/
def fwb_cols : List String := ["gf1", "gf2", "gf3", "gf4", "gf5", "gf6", "gf7"]

/-- `[f"ge{i}" for i in range(1, 7) if i != 2]`. -/
def ewb_reverse_items : List String := ["ge1", "ge3", "ge4", "ge5", "ge6"]

/-- The per-item loop of `FACT_G_scoring.calculate_subscale_score`
(lines 34–40 of `FACT_G_scoring.py`; the function is duplicated
verbatim from `FACT_E_scoring.py`). -/
def itemScoresLoop (df : DF) (cols reverse_items : List String) : Except String DF :=
  cols.foldlM (fun d col => do
      let raw ← getCol d col
      let sc := if reverse_items.contains col then raw.map (fun x => (4 : ℚ) - x) else raw
      pure (setCol d (col ++ "_score") sc)) df

/-- `calculate_subscale_score` of `FACT_G_scoring.py` (lines 17–59),
duplicated verbatim from `FACT_E_scoring.py`. -/
def calculate_subscale_score (df : DF) (cols : List String) (reverse_items : List String)
    (subscale_name : String) : Except String DF := do
  let df ← itemScoresLoop df cols reverse_items
  let score_cols := cols.map (fun c => c ++ "_score")
  let vals ← score_cols.mapM (fun c => getCol df c)
  let num_answered_items : ℕ := (vals.filterMap id).length
  let total_items : ℕ := cols.length
  let min_items_required : ℚ := (total_items : ℚ) / 2
  let cell : Cell :=
    if (num_answered_items : ℚ) ≥ min_items_required then
      some ((vals.filterMap id).sum * (total_items : ℚ) / (num_answered_items : ℚ))
    else none
  pure (setCol df (subscale_name ++ "_subscale_score") cell)

/-- `fact_g_items = pwb_cols + swb_cols + ewb_cols + fwb_cols` — 27 items. -/
def fact_g_items : List String := pwb_cols ++ swb_cols ++ ewb_cols ++ fwb_cols

/-- `calculate_fact_g_scores` (lines 62–112 of `FACT_G_scoring.py`):
the four subscales, then `fact_g_total` gated on the four subscale
scores being non-`NaN` and ≥ 22 of the 27 item scores answered. -/
def calculate_fact_g_scores (df : DF) : Except String DF := do
  let df ← calculate_subscale_score df pwb_cols pwb_cols "pwb"
  let df ← calculate_subscale_score df swb_cols [] "swb"
  let df ← calculate_subscale_score df ewb_cols ewb_reverse_items "ewb"
  let df ← calculate_subscale_score df fwb_cols [] "fwb"
  let gvals ← (fact_g_items.map (fun c => c ++ "_score")).mapM (fun c => getCol df c)
  let fact_g_num_answered : ℕ := (gvals.filterMap id).length
  let pwb ← getCol df "pwb_subscale_score"
  let swb ← getCol df "swb_subscale_score"
  let ewb ← getCol df "ewb_subscale_score"
  let fwb ← getCol df "fwb_subscale_score"
  let fact_g_cell : Cell :=
    if pwb.isSome = true ∧ swb.isSome = true ∧ ewb.isSome = true ∧ fwb.isSome = true ∧
        22 ≤ fact_g_num_answered then
      addCell (addCell (addCell pwb swb) ewb) fwb
    else none
  pure (setCol df "fact_g_total" fact_g_cell)

/-- The fixed extraction list of `extract_fact_g_columns` (lines 126–130):
`["id"]` followed by the 27 FACT-G items. -/
def columns_to_extract : List String := ["id"] ++ fact_g_items

/-- `extract_fact_g_columns` (lines 115–135). -/
def extract_fact_g_columns (df : DF) : DF :=
  mkRow (fun c => lookupCell df c) (columns_to_extract.filter (fun c => hasCol df c))

/-- The computational core of `main()` of `FACT_G_scoring.py`. -/
def run_scoring (df : DF) : Except String DF :=
  calculate_fact_g_scores (extract_fact_g_columns df)

end FACT_G_scoring

/-!
Closed per-respondent forms of the computations above, used to state the
properties.  Each is proved below to agree with the corresponding
DataFrame computation.  `get` assigns to every raw item name its cell.
-/

/-- The transform of lines 34–40 on one cell: `4 - raw` for an item in
the reverse set, `raw` otherwise; `NaN` stays `NaN`. -/
def transformCell (reverse_items : List String) (c : String) (v : Cell) : Cell :=
  if reverse_items.contains c then v.map (fun x => (4 : ℚ) - x) else v

/-- The transformed values of the answered (non-missing) items of a subscale. -/
def answeredList (get : String → Cell) (cols reverse_items : List String) : List ℚ :=
  (cols.map (fun c => transformCell reverse_items c (get c))).filterMap id

/-- `answered`: how many of the subscale's items are non-missing. -/
def answeredCount (get : String → Cell) (cols reverse_items : List String) : ℕ :=
  (answeredList get cols reverse_items).length

/-- The subscale cell of lines 52–57: prorated sum if at least half of
the items (true division) are answered, `NaN` otherwise. -/
def subscaleCell (get : String → Cell) (cols reverse_items : List String) : Cell :=
  if (answeredCount get cols reverse_items : ℚ) ≥ (cols.length : ℚ) / 2 then
    some ((answeredList get cols reverse_items).sum * (cols.length : ℚ) /
      (answeredCount get cols reverse_items : ℚ))
  else none

/-- Physical Well-Being subscale cell (all seven items reversed). -/
def pwbCell (get : String → Cell) : Cell :=
  subscaleCell get FACT_E_scoring.pwb_cols FACT_E_scoring.pwb_cols

/-- Social/Family Well-Being subscale cell (no reversed item). -/
def swbCell (get : String → Cell) : Cell :=
  subscaleCell get FACT_E_scoring.swb_cols []

/-- Emotional Well-Being subscale cell (all but `ge2` reversed). -/
def ewbCell (get : String → Cell) : Cell :=
  subscaleCell get FACT_E_scoring.ewb_cols FACT_E_scoring.ewb_reverse_items

/-- Functional Well-Being subscale cell (no reversed item). -/
def fwbCell (get : String → Cell) : Cell :=
  subscaleCell get FACT_E_scoring.fwb_cols []

/-- Esophageal Cancer Subscale cell. -/
def ecsCell (get : String → Cell) : Cell :=
  subscaleCell get FACT_E_scoring.ecs_cols FACT_E_scoring.ecs_reverse_items

/-- All reverse-scored item names of the instrument.  Each item belongs
to exactly one subscale, so membership here agrees with membership in
the item's own subscale reverse set. -/
def all_reverse_items : List String :=
  FACT_E_scoring.pwb_cols ++ FACT_E_scoring.ewb_reverse_items ++
    FACT_E_scoring.ecs_reverse_items

/-- The `{col}_score` cell of an item after its subscale pass. -/
def itemScore (get : String → Cell) (c : String) : Cell :=
  transformCell all_reverse_items c (get c)

/-- Count of answered items across a composite's item union (the
`notna().sum(axis=1)` of lines 103, 122, 138). -/
def unionAnswered (get : String → Cell) (items : List String) : ℕ :=
  ((items.map (fun c => itemScore get c)).filterMap id).length

/-- `fact_g_total` cell (lines 106–117): sum of the four subscale cells,
gated on all four being present and ≥ 22 of 27 items answered. -/
def factGCell (get : String → Cell) : Cell :=
  if (pwbCell get).isSome = true ∧ (swbCell get).isSome = true ∧
      (ewbCell get).isSome = true ∧ (fwbCell get).isSome = true ∧
      22 ≤ unionAnswered get FACT_E_scoring.fact_g_items then
    addCell (addCell (addCell (pwbCell get) (swbCell get)) (ewbCell get)) (fwbCell get)
  else none

/-- `fact_e_total` cell (lines 125–133): `fact_g_total + ecs`, gated on
both being present and ≥ 36 of 44 items answered. -/
def factECell (get : String → Cell) : Cell :=
  if (factGCell get).isSome = true ∧ (ecsCell get).isSome = true ∧
      36 ≤ unionAnswered get FACT_E_scoring.fact_e_items then
    addCell (factGCell get) (ecsCell get)
  else none

/-- `toi` cell (lines 141–150): `pwb + fwb + ecs`, gated on the three
being present and ≥ 25 of 31 items answered. -/
def toiCell (get : String → Cell) : Cell :=
  if (pwbCell get).isSome = true ∧ (fwbCell get).isSome = true ∧
      (ecsCell get).isSome = true ∧ 25 ≤ unionAnswered get FACT_E_scoring.toi_items then
    addCell (addCell (pwbCell get) (fwbCell get)) (ecsCell get)
  else none

/-- The derived non-item columns `calculate_fact_e_scores` assigns. -/
def output_names : List String :=
  ["pwb_subscale_score", "swb_subscale_score", "ewb_subscale_score",
   "fwb_subscale_score", "ecs_subscale_score", "fact_g_total", "fact_e_total", "toi"]

/-- Every column name `calculate_fact_e_scores` assigns. -/
def written_names : List String :=
  FACT_E_scoring.fact_e_items.map (fun c => c ++ "_score") ++ output_names

/-- The derived non-item columns `calculate_fact_g_scores` assigns. -/
def output_names_g : List String :=
  ["pwb_subscale_score", "swb_subscale_score", "ewb_subscale_score",
   "fwb_subscale_score", "fact_g_total"]

/-- Every column name `calculate_fact_g_scores` assigns. -/
def written_names_g : List String :=
  FACT_G_scoring.fact_g_items.map (fun c => c ++ "_score") ++ output_names_g

/-- An input table holding the identifier and all 44 FACT-E items, with
cells given by `v`. -/
def dfFull (v : String → Cell) : DF := mkRow v FACT_E_scoring.columns_to_extract

/-- An input table holding the identifier and all 27 FACT-G items. -/
def dfFullG (v : String → Cell) : DF := mkRow v FACT_G_scoring.columns_to_extract

/-- The scored table of the FACT-E module (empty on a `KeyError`). -/
def FE_scored (df : DF) : DF :=
  (FACT_E_scoring.calculate_fact_e_scores df).toOption.getD []

/-- The scored table of the FACT-G module (empty on a `KeyError`). -/
def FG_scored (df : DF) : DF :=
  (FACT_G_scoring.calculate_fact_g_scores df).toOption.getD []

/-- Every answer present, raw value 0. -/
def vZero : String → Cell := fun _ => some 0

/-- Every answer missing. -/
def vNone : String → Cell := fun _ => none

/-- 22 of the 27 FACT-G items answered (value 0); every per-subscale
half gate passes (6/7, 6/7, 5/6, 5/7). -/
def v22 : String → Cell := fun c =>
  if ["gp1", "gs1", "ge1", "gf1", "gf2"].contains c then none else some 0

/-- 20 of the 27 FACT-G items answered (value 0); every per-subscale
half gate passes (5/7, 5/7, 4/6, 6/7). -/
def v20 : String → Cell := fun c =>
  if ["gp1", "gp2", "gs1", "gs2", "ge1", "ge2", "gf1"].contains c then none else some 0

/-- An input table from which the expected item column `gp1` is absent. -/
def df_missing_gp1 : DF :=
  mkRow vZero (FACT_E_scoring.columns_to_extract.erase "gp1")

/-- An input table holding the identifier and all FACT-G item columns,
but none of the ECS item columns. -/
def dfG_only : DF := mkRow vZero FACT_G_scoring.columns_to_extract

/-- The fully answered all-zero input table. -/
def df0 : DF := dfFull vZero

/-- Its scored output. -/
def out0 : DF := FE_scored df0

/-! ### Basic properties of the table primitives -/

lemma getCol_eq (df : DF) (c : String) :
    getCol df c = if hasCol df c then .ok (lookupCell df c) else .error c := by
  induction df with
  | nil => rfl
  | cons p t ih =>
    cases h : (p.1 == c) with
    | true => simp [getCol, lookupCell, hasCol, List.any_cons, List.find?_cons, h]
    | false =>
      simp only [getCol, lookupCell, hasCol, List.any_cons, List.find?_cons, h,
        Bool.false_or] at *
      exact ih

lemma lookupCell_none (df : DF) (c : String) (h : hasCol df c = false) :
    lookupCell df c = none := by
  induction df with
  | nil => rfl
  | cons p t ih =>
    simp only [hasCol, List.any_cons, Bool.or_eq_false_iff] at h
    simpa [lookupCell, List.find?_cons, h.1] using ih (by simp [hasCol, h.2])

lemma beq_symm_str (a b : String) : (a == b) = (b == a) := by
  by_cases h : a = b
  · rw [h]
  · rw [beq_eq_false_iff_ne.mpr h, beq_eq_false_iff_ne.mpr (Ne.symm h)]

lemma hasCol_setCol (df : DF) (c : String) (v : Cell) (c' : String) :
    hasCol (setCol df c v) c' = (hasCol df c' || (c' == c)) := by
  unfold setCol
  by_cases h : hasCol df c
  · rw [if_pos h]
    have hmap : (fun p : String × Cell => ((if p.1 == c then (c, v) else p).1 == c'))
        = fun p : String × Cell => (p.1 == c') := by
      funext p
      by_cases hp : (p.1 == c) = true
      · rw [if_pos hp]
        rw [eq_of_beq hp]
      · rw [if_neg hp]
    by_cases hc : c' = c
    · subst hc
      simp only [hasCol, List.any_map, Function.comp_def, hmap]
      rw [beq_self_eq_true, Bool.or_true]
      exact h
    · simp only [hasCol, List.any_map, Function.comp_def, hmap,
        beq_eq_false_iff_ne.mpr hc, Bool.or_false]
  · rw [if_neg h]
    simp only [hasCol, List.any_append, List.any_cons, List.any_nil, Bool.or_false]
    rw [beq_symm_str c c']

lemma lookupCell_map_ne (df : DF) (c : String) (v : Cell) (c' : String) (hc : c' ≠ c) :
    lookupCell (df.map (fun p => if p.1 == c then (c, v) else p)) c' = lookupCell df c' := by
  induction df with
  | nil => rfl
  | cons p t ih =>
    by_cases hp : (p.1 == c) = true
    · have hp1 : p.1 = c := eq_of_beq hp
      simp only [List.map_cons, if_pos hp, lookupCell, List.find?_cons,
        beq_eq_false_iff_ne.mpr (fun h => hc h.symm : c ≠ c'),
        beq_eq_false_iff_ne.mpr (hp1 ▸ (fun h => hc h.symm : c ≠ c') : p.1 ≠ c')]
      exact ih
    · simp only [List.map_cons, if_neg hp]
      cases hpc : (p.1 == c') with
      | true => simp [lookupCell, List.find?_cons, hpc]
      | false =>
        simpa [lookupCell, List.find?_cons, hpc] using ih

lemma lookupCell_map_self (df : DF) (c : String) (v : Cell) (h : hasCol df c = true) :
    lookupCell (df.map (fun p => if p.1 == c then (c, v) else p)) c = v := by
  induction df with
  | nil => simp [hasCol] at h
  | cons p t ih =>
    by_cases hp : (p.1 == c) = true
    · rw [List.map_cons, if_pos hp]
      simp [lookupCell, List.find?_cons]
    · simp only [hasCol, List.any_cons, Bool.or_eq_true] at h
      rcases h with h | h
      · exact absurd h hp
      · have hp' : (p.1 == c) = false := by rwa [Bool.not_eq_true] at hp
        rw [List.map_cons, if_neg hp]
        have ih' := ih (by simpa [hasCol] using h)
        simp only [lookupCell, List.find?_cons, hp'] at ih' ⊢
        exact ih'

lemma lookupCell_append_single (df : DF) (c : String) (v : Cell) (c' : String) :
    lookupCell (df ++ [(c, v)]) c'
      = if hasCol df c' then lookupCell df c' else (if c' = c then v else none) := by
  induction df with
  | nil =>
    by_cases hc : c' = c
    · subst hc; simp [lookupCell, hasCol, List.find?_cons]
    · simp [lookupCell, hasCol, List.find?_cons, beq_eq_false_iff_ne.mpr (fun h => hc h.symm : c ≠ c'), hc]
  | cons p t ih =>
    cases hpc : (p.1 == c') with
    | true => simp [lookupCell, hasCol, List.any_cons, List.find?_cons, hpc]
    | false =>
      simp only [lookupCell, hasCol, List.any_cons, List.cons_append, List.find?_cons, hpc,
        Bool.false_or] at *
      exact ih

lemma lookupCell_setCol (df : DF) (c : String) (v : Cell) (c' : String) :
    lookupCell (setCol df c v) c' = if c' = c then v else lookupCell df c' := by
  unfold setCol
  by_cases h : hasCol df c
  · rw [if_pos h]
    by_cases hc : c' = c
    · subst hc; rw [if_pos rfl]; exact lookupCell_map_self df c' v h
    · rw [if_neg hc]; exact lookupCell_map_ne df c v c' hc
  · rw [if_neg h]
    rw [lookupCell_append_single]
    by_cases hc' : hasCol df c' = true
    · rw [if_pos hc']
      have hcc : ¬ c' = c := fun he => h (he ▸ hc')
      rw [if_neg hcc]
    · rw [if_neg hc']
      rw [Bool.not_eq_true] at hc'
      rw [lookupCell_none df c' hc']

lemma lookupCell_mkRow (v : String → Cell) (cols : List String) (c : String) (h : c ∈ cols) :
    lookupCell (mkRow v cols) c = v c := by
  induction cols with
  | nil => cases h
  | cons a t ih =>
    by_cases ha : (a == c) = true
    · have := eq_of_beq ha
      subst this
      simp [mkRow, lookupCell, List.find?_cons]
    · rcases List.mem_cons.mp h with h1 | h1
      · subst h1; simp at ha
      · simpa [mkRow, lookupCell, List.find?_cons, ha] using ih h1

lemma hasCol_mkRow (v : String → Cell) (cols : List String) (c : String) :
    hasCol (mkRow v cols) c = cols.contains c := by
  induction cols with
  | nil => rfl
  | cons a t ih =>
    simp only [mkRow, hasCol, List.map_cons, List.any_cons, List.contains_cons] at *
    rw [ih, beq_symm_str a c]

lemma mapM_getCol (df : DF) (L : List String) (h : ∀ c ∈ L, hasCol df c = true) :
    L.mapM (fun c => getCol df c) = .ok (L.map (fun c => lookupCell df c)) := by
  induction L with
  | nil => rfl
  | cons a t ih =>
    rw [List.mapM_cons, getCol_eq, if_pos (h a (by simp))]
    have := ih (fun c hc => h c (List.mem_cons_of_mem a hc))
    rw [show (t.mapM fun c => getCol df c) = _ from this]
    rfl

lemma append_cancel_str {a b : String} (s : String) (h : a ++ s = b ++ s) : a = b := by
  have hd := congrArg String.data h
  simp only [String.data_append] at hd
  exact String.ext (List.append_cancel_right hd)

lemma ne_append_score (c : String) : c ≠ c ++ "_score" := by
  intro h
  have hl := congrArg String.length h
  rw [String.length_append, show ("_score" : String).length = 6 from rfl] at hl
  omega

lemma ok_bind {α β : Type} (x : α) (f : α → Except String β) :
    (Except.ok x : Except String α) >>= f = f x := rfl

lemma error_bind {α β : Type} (e : String) (f : α → Except String β) :
    (Except.error e : Except String α) >>= f = .error e := rfl

/-! ### The item-score loop and the subscale scorer, characterized -/

lemma itemScoresLoop_spec (rev : List String) :
    ∀ (cols : List String) (df : DF),
    (∀ c ∈ cols, hasCol df c = true) →
    (∀ c ∈ cols, ∀ c' ∈ cols, c ≠ c' ++ "_score") →
    ∃ out, FACT_E_scoring.itemScoresLoop df cols rev = .ok out ∧
      (∀ c, (∀ c' ∈ cols, c ≠ c' ++ "_score") →
        lookupCell out c = lookupCell df c ∧ hasCol out c = hasCol df c) ∧
      (∀ c ∈ cols, lookupCell out (c ++ "_score")
          = transformCell rev c (lookupCell df c) ∧ hasCol out (c ++ "_score") = true) := by
  intro cols
  induction cols with
  | nil =>
    intro df _ _
    exact ⟨df, rfl, fun c _ => ⟨rfl, rfl⟩, fun c hc => absurd hc (List.not_mem_nil c)⟩
  | cons col rest ih =>
    intro df hpres hdisj
    have hcol : hasCol df col = true := hpres col (List.mem_cons_self col rest)
    set sc : Cell := (if rev.contains col then (lookupCell df col).map (fun x => (4 : ℚ) - x)
      else lookupCell df col) with hsc
    set d1 : DF := setCol df (col ++ "_score") sc with hd1
    have hstep : FACT_E_scoring.itemScoresLoop df (col :: rest) rev
        = FACT_E_scoring.itemScoresLoop d1 rest rev := by
      unfold FACT_E_scoring.itemScoresLoop
      rw [List.foldlM_cons, getCol_eq df col, if_pos hcol]
      rfl
    have hpres1 : ∀ c ∈ rest, hasCol d1 c = true := by
      intro c hc
      simp [hd1, hasCol_setCol, hpres c (List.mem_cons_of_mem col hc)]
    have hdisj1 : ∀ c ∈ rest, ∀ c' ∈ rest, c ≠ c' ++ "_score" :=
      fun c hc c' hc' => hdisj c (List.mem_cons_of_mem col hc) c' (List.mem_cons_of_mem col hc')
    obtain ⟨out, hrun, hkeep, hsc2⟩ := ih d1 hpres1 hdisj1
    refine ⟨out, ?_, ?_, ?_⟩
    · rw [hstep, hrun]
    · intro c hc
      have hcns : c ≠ col ++ "_score" := hc col (List.mem_cons_self col rest)
      have h2 := hkeep c (fun c' hc' => hc c' (List.mem_cons_of_mem col hc'))
      refine ⟨?_, ?_⟩
      · rw [h2.1, hd1, lookupCell_setCol, if_neg hcns]
      · rw [h2.2, hd1, hasCol_setCol, beq_eq_false_iff_ne.mpr hcns, Bool.or_false]
    · intro c hc
      rcases List.mem_cons.mp hc with hceq | hcr
      · subst hceq
        by_cases hmem : c ∈ rest
        · have h3 := hsc2 c hmem
          have hlook : lookupCell d1 c = lookupCell df c := by
            rw [hd1, lookupCell_setCol, if_neg (ne_append_score c)]
          rw [hlook] at h3
          exact h3
        · have hnotin : ∀ c' ∈ rest, c ++ "_score" ≠ c' ++ "_score" := by
            intro c' hc' heq
            exact hmem (by rw [append_cancel_str "_score" heq]; exact hc')
          have h2 := hkeep (c ++ "_score") hnotin
          refine ⟨?_, ?_⟩
          · rw [h2.1, hd1, lookupCell_setCol, if_pos rfl, hsc]
            rfl
          · rw [h2.2, hd1, hasCol_setCol, beq_self_eq_true, Bool.or_true]
      · have h3 := hsc2 c hcr
        have hlook : lookupCell d1 c = lookupCell df c := by
          rw [hd1, lookupCell_setCol,
            if_neg (hdisj c hc col (List.mem_cons_self col rest))]
        rw [hlook] at h3
        exact h3

lemma calculate_subscale_score_spec (rev cols : List String) (nm : String) (df : DF)
    (hpres : ∀ c ∈ cols, hasCol df c = true)
    (hdisj : ∀ c ∈ cols, ∀ c' ∈ cols, c ≠ c' ++ "_score")
    (hnm : ∀ c ∈ cols, nm ++ "_subscale_score" ≠ c ++ "_score") :
    ∃ out, FACT_E_scoring.calculate_subscale_score df cols rev nm = .ok out ∧
      lookupCell out (nm ++ "_subscale_score") = subscaleCell (lookupCell df) cols rev ∧
      hasCol out (nm ++ "_subscale_score") = true ∧
      (∀ c, (∀ c' ∈ cols, c ≠ c' ++ "_score") → c ≠ nm ++ "_subscale_score" →
        lookupCell out c = lookupCell df c ∧ hasCol out c = hasCol df c) ∧
      (∀ c ∈ cols, lookupCell out (c ++ "_score") = transformCell rev c (lookupCell df c) ∧
        hasCol out (c ++ "_score") = true) := by
  obtain ⟨mid, hrun, hkeep, hsc⟩ := itemScoresLoop_spec rev cols df hpres hdisj
  have hpres2 : ∀ c ∈ cols.map (fun c => c ++ "_score"), hasCol mid c = true := by
    intro c hc
    obtain ⟨c0, hc0, rfl⟩ := List.mem_map.mp hc
    exact (hsc c0 hc0).2
  have hmapM := mapM_getCol mid (cols.map (fun c => c ++ "_score")) hpres2
  have hvals : (cols.map (fun c => c ++ "_score")).map (fun c => lookupCell mid c)
      = cols.map (fun c => transformCell rev c (lookupCell df c)) := by
    rw [List.map_map]
    exact List.map_congr_left (fun c hc => (hsc c hc).1)
  rw [hvals] at hmapM
  refine ⟨setCol mid (nm ++ "_subscale_score") (subscaleCell (lookupCell df) cols rev),
    ?_, ?_, ?_, ?_, ?_⟩
  · unfold FACT_E_scoring.calculate_subscale_score
    rw [hrun, ok_bind]
    simp only [hmapM, ok_bind]
    rfl
  · rw [lookupCell_setCol, if_pos rfl]
  · rw [hasCol_setCol, beq_self_eq_true, Bool.or_true]
  · intro c hcnames hcsub
    have h2 := hkeep c hcnames
    refine ⟨?_, ?_⟩
    · rw [lookupCell_setCol, if_neg hcsub, h2.1]
    · rw [hasCol_setCol, beq_eq_false_iff_ne.mpr hcsub, Bool.or_false, h2.2]
  · intro c hc
    have h3 := hsc c hc
    refine ⟨?_, ?_⟩
    · rw [lookupCell_setCol, if_neg (Ne.symm (hnm c hc)), h3.1]
    · rw [hasCol_setCol, h3.2, Bool.true_or]

/-! ### Congruence and name-disjointness facts -/

lemma transformCell_congr (rev rev' : List String) (c : String) (v : Cell)
    (h : rev.contains c = rev'.contains c) :
    transformCell rev c v = transformCell rev' c v := by
  unfold transformCell
  rw [h]

lemma subscaleCell_congr (get get' : String → Cell) (cols rev : List String)
    (h : ∀ c ∈ cols, get c = get' c) :
    subscaleCell get cols rev = subscaleCell get' cols rev := by
  unfold subscaleCell answeredCount answeredList
  rw [List.map_congr_left (fun c hc => by rw [h c hc])]

lemma col_ne_of_not_mem {c x : String} {L : List String} (h : c ∉ L) (hx : x ∈ L) :
    c ≠ x := fun he => h (by rw [he]; exact hx)

lemma score_ne_of_ne {c c' : String} (h : c ≠ c') : c ++ "_score" ≠ c' ++ "_score" :=
  fun he => h (append_cancel_str "_score" he)

lemma FG_calculate_subscale_score_eq :
    FACT_G_scoring.calculate_subscale_score = FACT_E_scoring.calculate_subscale_score := rfl

lemma ne_append_score_of_short {c c' : String} (h : c.length < c'.length + 6) :
    c ≠ c' ++ "_score" := by
  intro he
  rw [he, String.length_append, show ("_score" : String).length = 6 from rfl] at h
  exact absurd h (lt_irrefl _)

lemma factGCell_eq (get : String → Cell) :
    (if (pwbCell get).isSome = true ∧ (swbCell get).isSome = true ∧
        (ewbCell get).isSome = true ∧ (fwbCell get).isSome = true ∧
        22 ≤ unionAnswered get FACT_E_scoring.fact_g_items then
      addCell (addCell (addCell (pwbCell get) (swbCell get)) (ewbCell get)) (fwbCell get)
    else none) = factGCell get := rfl

lemma factECell_eq (get : String → Cell) :
    (if (factGCell get).isSome = true ∧ (ecsCell get).isSome = true ∧
        36 ≤ unionAnswered get FACT_E_scoring.fact_e_items then
      addCell (factGCell get) (ecsCell get)
    else none) = factECell get := rfl

lemma toiCell_eq (get : String → Cell) :
    (if (pwbCell get).isSome = true ∧ (fwbCell get).isSome = true ∧
        (ecsCell get).isSome = true ∧ 25 ≤ unionAnswered get FACT_E_scoring.toi_items then
      addCell (addCell (pwbCell get) (fwbCell get)) (ecsCell get)
    else none) = toiCell get := rfl

/-! ### The FACT-E scoring pipeline, characterized on any table holding
all 44 item columns -/

set_option maxHeartbeats 4000000 in
open FACT_E_scoring in
lemma calculate_fact_e_scores_spec (df : DF)
    (hpres : ∀ c ∈ fact_e_items, hasCol df c = true) :
    ∃ out, calculate_fact_e_scores df = .ok out ∧
      lookupCell out "pwb_subscale_score" = pwbCell (lookupCell df) ∧
      lookupCell out "swb_subscale_score" = swbCell (lookupCell df) ∧
      lookupCell out "ewb_subscale_score" = ewbCell (lookupCell df) ∧
      lookupCell out "fwb_subscale_score" = fwbCell (lookupCell df) ∧
      lookupCell out "ecs_subscale_score" = ecsCell (lookupCell df) ∧
      lookupCell out "fact_g_total" = factGCell (lookupCell df) ∧
      lookupCell out "fact_e_total" = factECell (lookupCell df) ∧
      lookupCell out "toi" = toiCell (lookupCell df) ∧
      (∀ c ∈ fact_e_items, lookupCell out (c ++ "_score") = itemScore (lookupCell df) c) ∧
      (∀ c, c ∉ written_names →
        lookupCell out c = lookupCell df c ∧ hasCol out c = hasCol df c) := by
  have hsubP : ∀ c ∈ pwb_cols, c ∈ fact_e_items := by decide
  have hsubS : ∀ c ∈ swb_cols, c ∈ fact_e_items := by decide
  have hsubE : ∀ c ∈ ewb_cols, c ∈ fact_e_items := by decide
  have hsubF : ∀ c ∈ fwb_cols, c ∈ fact_e_items := by decide
  have hsubC : ∀ c ∈ ecs_cols, c ∈ fact_e_items := by decide
  have hsubG : ∀ c ∈ fact_g_items, c ∈ fact_e_items := by decide
  have hsubT : ∀ c ∈ toi_items, c ∈ fact_e_items := by decide
  have hlen7 : ∀ c ∈ fact_e_items, c.length ≤ 7 := by decide
  have hlen3 : ∀ c ∈ fact_e_items, 3 ≤ c.length := by decide
  have hDisjAll : ∀ c ∈ fact_e_items, ∀ c' ∈ fact_e_items, c ≠ c' ++ "_score" :=
    fun c hc c' hc' => ne_append_score_of_short
      (by have h1 := hlen7 c hc; have h2 := hlen3 c' hc'; omega)
  have hOut : ∀ c ∈ fact_e_items, c ∉ output_names := by decide
  have hScoreOut : ∀ c ∈ fact_e_items, (c ++ "_score") ∉ output_names := by decide
  have hRawNW : ∀ c ∈ fact_e_items, c ∉ written_names := by
    intro c hc hmem
    rcases List.mem_append.mp hmem with hm | hm
    · obtain ⟨c0, hc0, he⟩ := List.mem_map.mp hm
      exact hDisjAll c hc c0 hc0 he.symm
    · exact hOut c hc hm
  have hPS : ∀ c ∈ pwb_cols, c ∉ swb_cols := by decide
  have hPE : ∀ c ∈ pwb_cols, c ∉ ewb_cols := by decide
  have hPF : ∀ c ∈ pwb_cols, c ∉ fwb_cols := by decide
  have hPC : ∀ c ∈ pwb_cols, c ∉ ecs_cols := by decide
  have hSE : ∀ c ∈ swb_cols, c ∉ ewb_cols := by decide
  have hSF : ∀ c ∈ swb_cols, c ∉ fwb_cols := by decide
  have hSC : ∀ c ∈ swb_cols, c ∉ ecs_cols := by decide
  have hEF : ∀ c ∈ ewb_cols, c ∉ fwb_cols := by decide
  have hEC : ∀ c ∈ ewb_cols, c ∉ ecs_cols := by decide
  have hFC : ∀ c ∈ fwb_cols, c ∉ ecs_cols := by decide
  have hTP : ∀ c ∈ pwb_cols, pwb_cols.contains c = all_reverse_items.contains c := by decide
  have hTS : ∀ c ∈ swb_cols,
      (List.nil : List String).contains c = all_reverse_items.contains c := by decide
  have hTE : ∀ c ∈ ewb_cols,
      ewb_reverse_items.contains c = all_reverse_items.contains c := by decide
  have hTF : ∀ c ∈ fwb_cols,
      (List.nil : List String).contains c = all_reverse_items.contains c := by decide
  have hTC : ∀ c ∈ ecs_cols,
      ecs_reverse_items.contains c = all_reverse_items.contains c := by decide
  have hRoute : ∀ c ∈ fact_e_items, c ∈ pwb_cols ∨ c ∈ swb_cols ∨ c ∈ ewb_cols ∨
      c ∈ fwb_cols ∨ c ∈ ecs_cols := by decide
  -- Stage 1: PWB
  obtain ⟨d1, run1, sub1, subh1, keep1, sc1⟩ :=
    calculate_subscale_score_spec pwb_cols pwb_cols "pwb" df
      (fun c hc => hpres c (hsubP c hc))
      (fun c hc c' hc' => hDisjAll c (hsubP c hc) c' (hsubP c' hc'))
      (fun c hc => Ne.symm (col_ne_of_not_mem (hScoreOut c (hsubP c hc)) (by decide)))
  rw [show ("pwb" : String) ++ "_subscale_score" = "pwb_subscale_score" from rfl]
    at sub1 subh1 keep1
  have keepG1 : ∀ c, c ∉ written_names →
      lookupCell d1 c = lookupCell df c ∧ hasCol d1 c = hasCol df c := by
    intro c hnc
    exact keep1 c
      (fun c' hc' => col_ne_of_not_mem hnc
        (List.mem_append_left _ (List.mem_map_of_mem _ (hsubP c' hc'))))
      (col_ne_of_not_mem hnc (by decide))
  -- Stage 2: SWB
  obtain ⟨d2, run2, sub2, subh2, keep2, sc2⟩ :=
    calculate_subscale_score_spec [] swb_cols "swb" d1
      (fun c hc => by
        rw [(keepG1 c (hRawNW c (hsubS c hc))).2]; exact hpres c (hsubS c hc))
      (fun c hc c' hc' => hDisjAll c (hsubS c hc) c' (hsubS c' hc'))
      (fun c hc => Ne.symm (col_ne_of_not_mem (hScoreOut c (hsubS c hc)) (by decide)))
  rw [show ("swb" : String) ++ "_subscale_score" = "swb_subscale_score" from rfl]
    at sub2 subh2 keep2
  have keepG2 : ∀ c, c ∉ written_names →
      lookupCell d2 c = lookupCell df c ∧ hasCol d2 c = hasCol df c := by
    intro c hnc
    have h := keep2 c
      (fun c' hc' => col_ne_of_not_mem hnc
        (List.mem_append_left _ (List.mem_map_of_mem _ (hsubS c' hc'))))
      (col_ne_of_not_mem hnc (by decide))
    exact ⟨h.1.trans (keepG1 c hnc).1, h.2.trans (keepG1 c hnc).2⟩
  -- Stage 3: EWB
  obtain ⟨d3, run3, sub3, subh3, keep3, sc3⟩ :=
    calculate_subscale_score_spec ewb_reverse_items ewb_cols "ewb" d2
      (fun c hc => by
        rw [(keepG2 c (hRawNW c (hsubE c hc))).2]; exact hpres c (hsubE c hc))
      (fun c hc c' hc' => hDisjAll c (hsubE c hc) c' (hsubE c' hc'))
      (fun c hc => Ne.symm (col_ne_of_not_mem (hScoreOut c (hsubE c hc)) (by decide)))
  rw [show ("ewb" : String) ++ "_subscale_score" = "ewb_subscale_score" from rfl]
    at sub3 subh3 keep3
  have keepG3 : ∀ c, c ∉ written_names →
      lookupCell d3 c = lookupCell df c ∧ hasCol d3 c = hasCol df c := by
    intro c hnc
    have h := keep3 c
      (fun c' hc' => col_ne_of_not_mem hnc
        (List.mem_append_left _ (List.mem_map_of_mem _ (hsubE c' hc'))))
      (col_ne_of_not_mem hnc (by decide))
    exact ⟨h.1.trans (keepG2 c hnc).1, h.2.trans (keepG2 c hnc).2⟩
  -- Stage 4: FWB
  obtain ⟨d4, run4, sub4, subh4, keep4, sc4⟩ :=
    calculate_subscale_score_spec [] fwb_cols "fwb" d3
      (fun c hc => by
        rw [(keepG3 c (hRawNW c (hsubF c hc))).2]; exact hpres c (hsubF c hc))
      (fun c hc c' hc' => hDisjAll c (hsubF c hc) c' (hsubF c' hc'))
      (fun c hc => Ne.symm (col_ne_of_not_mem (hScoreOut c (hsubF c hc)) (by decide)))
  rw [show ("fwb" : String) ++ "_subscale_score" = "fwb_subscale_score" from rfl]
    at sub4 subh4 keep4
  have keepG4 : ∀ c, c ∉ written_names →
      lookupCell d4 c = lookupCell df c ∧ hasCol d4 c = hasCol df c := by
    intro c hnc
    have h := keep4 c
      (fun c' hc' => col_ne_of_not_mem hnc
        (List.mem_append_left _ (List.mem_map_of_mem _ (hsubF c' hc'))))
      (col_ne_of_not_mem hnc (by decide))
    exact ⟨h.1.trans (keepG3 c hnc).1, h.2.trans (keepG3 c hnc).2⟩
  -- Stage 5: ECS
  obtain ⟨d5, run5, sub5, subh5, keep5, sc5⟩ :=
    calculate_subscale_score_spec ecs_reverse_items ecs_cols "ecs" d4
      (fun c hc => by
        rw [(keepG4 c (hRawNW c (hsubC c hc))).2]; exact hpres c (hsubC c hc))
      (fun c hc c' hc' => hDisjAll c (hsubC c hc) c' (hsubC c' hc'))
      (fun c hc => Ne.symm (col_ne_of_not_mem (hScoreOut c (hsubC c hc)) (by decide)))
  rw [show ("ecs" : String) ++ "_subscale_score" = "ecs_subscale_score" from rfl]
    at sub5 subh5 keep5
  have keepG5 : ∀ c, c ∉ written_names →
      lookupCell d5 c = lookupCell df c ∧ hasCol d5 c = hasCol df c := by
    intro c hnc
    have h := keep5 c
      (fun c' hc' => col_ne_of_not_mem hnc
        (List.mem_append_left _ (List.mem_map_of_mem _ (hsubC c' hc'))))
      (col_ne_of_not_mem hnc (by decide))
    exact ⟨h.1.trans (keepG4 c hnc).1, h.2.trans (keepG4 c hnc).2⟩
  -- The five subscale cells at the stage-5 frame
  have subP5 : lookupCell d5 "pwb_subscale_score" = pwbCell (lookupCell df) ∧
      hasCol d5 "pwb_subscale_score" = true := by
    have k2 := keep2 "pwb_subscale_score"
      (fun c' hc' => Ne.symm (col_ne_of_not_mem (hScoreOut c' (hsubS c' hc')) (by decide)))
      (by decide)
    have k3 := keep3 "pwb_subscale_score"
      (fun c' hc' => Ne.symm (col_ne_of_not_mem (hScoreOut c' (hsubE c' hc')) (by decide)))
      (by decide)
    have k4 := keep4 "pwb_subscale_score"
      (fun c' hc' => Ne.symm (col_ne_of_not_mem (hScoreOut c' (hsubF c' hc')) (by decide)))
      (by decide)
    have k5 := keep5 "pwb_subscale_score"
      (fun c' hc' => Ne.symm (col_ne_of_not_mem (hScoreOut c' (hsubC c' hc')) (by decide)))
      (by decide)
    refine ⟨?_, ?_⟩
    · rw [k5.1, k4.1, k3.1, k2.1, sub1]
      rfl
    · rw [k5.2, k4.2, k3.2, k2.2, subh1]
  have subS5 : lookupCell d5 "swb_subscale_score" = swbCell (lookupCell df) ∧
      hasCol d5 "swb_subscale_score" = true := by
    have k3 := keep3 "swb_subscale_score"
      (fun c' hc' => Ne.symm (col_ne_of_not_mem (hScoreOut c' (hsubE c' hc')) (by decide)))
      (by decide)
    have k4 := keep4 "swb_subscale_score"
      (fun c' hc' => Ne.symm (col_ne_of_not_mem (hScoreOut c' (hsubF c' hc')) (by decide)))
      (by decide)
    have k5 := keep5 "swb_subscale_score"
      (fun c' hc' => Ne.symm (col_ne_of_not_mem (hScoreOut c' (hsubC c' hc')) (by decide)))
      (by decide)
    refine ⟨?_, ?_⟩
    · rw [k5.1, k4.1, k3.1, sub2]
      exact subscaleCell_congr _ _ _ _
        (fun c hc => (keepG1 c (hRawNW c (hsubS c hc))).1)
    · rw [k5.2, k4.2, k3.2, subh2]
  have subE5 : lookupCell d5 "ewb_subscale_score" = ewbCell (lookupCell df) ∧
      hasCol d5 "ewb_subscale_score" = true := by
    have k4 := keep4 "ewb_subscale_score"
      (fun c' hc' => Ne.symm (col_ne_of_not_mem (hScoreOut c' (hsubF c' hc')) (by decide)))
      (by decide)
    have k5 := keep5 "ewb_subscale_score"
      (fun c' hc' => Ne.symm (col_ne_of_not_mem (hScoreOut c' (hsubC c' hc')) (by decide)))
      (by decide)
    refine ⟨?_, ?_⟩
    · rw [k5.1, k4.1, sub3]
      exact subscaleCell_congr _ _ _ _
        (fun c hc => (keepG2 c (hRawNW c (hsubE c hc))).1)
    · rw [k5.2, k4.2, subh3]
  have subF5 : lookupCell d5 "fwb_subscale_score" = fwbCell (lookupCell df) ∧
      hasCol d5 "fwb_subscale_score" = true := by
    have k5 := keep5 "fwb_subscale_score"
      (fun c' hc' => Ne.symm (col_ne_of_not_mem (hScoreOut c' (hsubC c' hc')) (by decide)))
      (by decide)
    refine ⟨?_, ?_⟩
    · rw [k5.1, sub4]
      exact subscaleCell_congr _ _ _ _
        (fun c hc => (keepG3 c (hRawNW c (hsubF c hc))).1)
    · rw [k5.2, subh4]
  have subC5 : lookupCell d5 "ecs_subscale_score" = ecsCell (lookupCell df) ∧
      hasCol d5 "ecs_subscale_score" = true := by
    refine ⟨?_, subh5⟩
    rw [sub5]
    exact subscaleCell_congr _ _ _ _
      (fun c hc => (keepG4 c (hRawNW c (hsubC c hc))).1)
  -- All 44 item-score cells at the stage-5 frame
  have scoreAll5 : ∀ c ∈ fact_e_items,
      lookupCell d5 (c ++ "_score") = itemScore (lookupCell df) c ∧
      hasCol d5 (c ++ "_score") = true := by
    intro c hci
    have hscnout : ∀ x : String, x ∈ output_names → c ++ "_score" ≠ x :=
      fun x hx => col_ne_of_not_mem (hScoreOut c hci) hx
    rcases hRoute c hci with h | h | h | h | h
    · have s := sc1 c h
      have t2 := keep2 (c ++ "_score")
        (fun c' hc' => score_ne_of_ne (col_ne_of_not_mem (hPS c h) hc'))
        (hscnout _ (by decide))
      have t3 := keep3 (c ++ "_score")
        (fun c' hc' => score_ne_of_ne (col_ne_of_not_mem (hPE c h) hc'))
        (hscnout _ (by decide))
      have t4 := keep4 (c ++ "_score")
        (fun c' hc' => score_ne_of_ne (col_ne_of_not_mem (hPF c h) hc'))
        (hscnout _ (by decide))
      have t5 := keep5 (c ++ "_score")
        (fun c' hc' => score_ne_of_ne (col_ne_of_not_mem (hPC c h) hc'))
        (hscnout _ (by decide))
      refine ⟨?_, ?_⟩
      · rw [t5.1, t4.1, t3.1, t2.1, s.1]
        exact transformCell_congr _ _ _ _ (hTP c h)
      · rw [t5.2, t4.2, t3.2, t2.2, s.2]
    · have s := sc2 c h
      have t3 := keep3 (c ++ "_score")
        (fun c' hc' => score_ne_of_ne (col_ne_of_not_mem (hSE c h) hc'))
        (hscnout _ (by decide))
      have t4 := keep4 (c ++ "_score")
        (fun c' hc' => score_ne_of_ne (col_ne_of_not_mem (hSF c h) hc'))
        (hscnout _ (by decide))
      have t5 := keep5 (c ++ "_score")
        (fun c' hc' => score_ne_of_ne (col_ne_of_not_mem (hSC c h) hc'))
        (hscnout _ (by decide))
      refine ⟨?_, ?_⟩
      · rw [t5.1, t4.1, t3.1, s.1, (keepG1 c (hRawNW c hci)).1]
        exact transformCell_congr _ _ _ _ (hTS c h)
      · rw [t5.2, t4.2, t3.2, s.2]
    · have s := sc3 c h
      have t4 := keep4 (c ++ "_score")
        (fun c' hc' => score_ne_of_ne (col_ne_of_not_mem (hEF c h) hc'))
        (hscnout _ (by decide))
      have t5 := keep5 (c ++ "_score")
        (fun c' hc' => score_ne_of_ne (col_ne_of_not_mem (hEC c h) hc'))
        (hscnout _ (by decide))
      refine ⟨?_, ?_⟩
      · rw [t5.1, t4.1, s.1, (keepG2 c (hRawNW c hci)).1]
        exact transformCell_congr _ _ _ _ (hTE c h)
      · rw [t5.2, t4.2, s.2]
    · have s := sc4 c h
      have t5 := keep5 (c ++ "_score")
        (fun c' hc' => score_ne_of_ne (col_ne_of_not_mem (hFC c h) hc'))
        (hscnout _ (by decide))
      refine ⟨?_, ?_⟩
      · rw [t5.1, s.1, (keepG3 c (hRawNW c hci)).1]
        exact transformCell_congr _ _ _ _ (hTF c h)
      · rw [t5.2, s.2]
    · have s := sc5 c h
      refine ⟨?_, ?_⟩
      · rw [s.1, (keepG4 c (hRawNW c hci)).1]
        exact transformCell_congr _ _ _ _ (hTC c h)
      · exact s.2
  -- Composite frames
  set d6 : DF := setCol d5 "fact_g_total" (factGCell (lookupCell df)) with hd6
  set d7 : DF := setCol d6 "fact_e_total" (factECell (lookupCell df)) with hd7
  have gmap : (fact_g_items.map (fun c => c ++ "_score")).mapM (fun c => getCol d5 c)
      = .ok (fact_g_items.map (fun c => itemScore (lookupCell df) c)) := by
    rw [mapM_getCol d5 _ (by
      intro x hx
      obtain ⟨c0, hc0, rfl⟩ := List.mem_map.mp hx
      exact (scoreAll5 c0 (hsubG c0 hc0)).2)]
    rw [List.map_map]
    exact congrArg Except.ok
      (List.map_congr_left fun c hc => (scoreAll5 c (hsubG c hc)).1)
  have g1 : getCol d5 "pwb_subscale_score" = .ok (pwbCell (lookupCell df)) := by
    rw [getCol_eq, subP5.2, if_pos rfl, subP5.1]
  have g2 : getCol d5 "swb_subscale_score" = .ok (swbCell (lookupCell df)) := by
    rw [getCol_eq, subS5.2, if_pos rfl, subS5.1]
  have g3 : getCol d5 "ewb_subscale_score" = .ok (ewbCell (lookupCell df)) := by
    rw [getCol_eq, subE5.2, if_pos rfl, subE5.1]
  have g4 : getCol d5 "fwb_subscale_score" = .ok (fwbCell (lookupCell df)) := by
    rw [getCol_eq, subF5.2, if_pos rfl, subF5.1]
  have score6 : ∀ c ∈ fact_e_items,
      lookupCell d6 (c ++ "_score") = itemScore (lookupCell df) c ∧
      hasCol d6 (c ++ "_score") = true := by
    intro c hci
    rw [hd6, lookupCell_setCol, hasCol_setCol,
      if_neg (col_ne_of_not_mem (hScoreOut c hci) (by decide)), (scoreAll5 c hci).2]
    exact ⟨(scoreAll5 c hci).1, rfl⟩
  have emap : (fact_e_items.map (fun c => c ++ "_score")).mapM (fun c => getCol d6 c)
      = .ok (fact_e_items.map (fun c => itemScore (lookupCell df) c)) := by
    rw [mapM_getCol d6 _ (by
      intro x hx
      obtain ⟨c0, hc0, rfl⟩ := List.mem_map.mp hx
      exact (score6 c0 hc0).2)]
    rw [List.map_map]
    exact congrArg Except.ok (List.map_congr_left fun c hc => (score6 c hc).1)
  have gtot6 : getCol d6 "fact_g_total" = .ok (factGCell (lookupCell df)) := by
    rw [getCol_eq, hd6, hasCol_setCol, beq_self_eq_true, Bool.or_true, if_pos rfl,
      lookupCell_setCol, if_pos rfl]
  have ecs6 : getCol d6 "ecs_subscale_score" = .ok (ecsCell (lookupCell df)) := by
    rw [getCol_eq, hd6, hasCol_setCol, lookupCell_setCol,
      if_neg (show ("ecs_subscale_score" : String) ≠ "fact_g_total" by decide), subC5.2,
      Bool.true_or, if_pos rfl, subC5.1]
  have score7 : ∀ c ∈ fact_e_items,
      lookupCell d7 (c ++ "_score") = itemScore (lookupCell df) c ∧
      hasCol d7 (c ++ "_score") = true := by
    intro c hci
    rw [hd7, lookupCell_setCol, hasCol_setCol,
      if_neg (col_ne_of_not_mem (hScoreOut c hci) (by decide)), (score6 c hci).2]
    exact ⟨(score6 c hci).1, rfl⟩
  have tmap : (toi_items.map (fun c => c ++ "_score")).mapM (fun c => getCol d7 c)
      = .ok (toi_items.map (fun c => itemScore (lookupCell df) c)) := by
    rw [mapM_getCol d7 _ (by
      intro x hx
      obtain ⟨c0, hc0, rfl⟩ := List.mem_map.mp hx
      exact (score7 c0 (hsubT c0 hc0)).2)]
    rw [List.map_map]
    exact congrArg Except.ok
      (List.map_congr_left fun c hc => (score7 c (hsubT c hc)).1)
  have p7 : getCol d7 "pwb_subscale_score" = .ok (pwbCell (lookupCell df)) := by
    rw [getCol_eq, hd7, hasCol_setCol, lookupCell_setCol,
      if_neg (show ("pwb_subscale_score" : String) ≠ "fact_e_total" by decide), hd6,
      hasCol_setCol, lookupCell_setCol,
      if_neg (show ("pwb_subscale_score" : String) ≠ "fact_g_total" by decide),
      subP5.2, Bool.true_or, Bool.true_or, if_pos rfl, subP5.1]
  have f7 : getCol d7 "fwb_subscale_score" = .ok (fwbCell (lookupCell df)) := by
    rw [getCol_eq, hd7, hasCol_setCol, lookupCell_setCol,
      if_neg (show ("fwb_subscale_score" : String) ≠ "fact_e_total" by decide), hd6,
      hasCol_setCol, lookupCell_setCol,
      if_neg (show ("fwb_subscale_score" : String) ≠ "fact_g_total" by decide),
      subF5.2, Bool.true_or, Bool.true_or, if_pos rfl, subF5.1]
  have e7 : getCol d7 "ecs_subscale_score" = .ok (ecsCell (lookupCell df)) := by
    rw [getCol_eq, hd7, hasCol_setCol, lookupCell_setCol,
      if_neg (show ("ecs_subscale_score" : String) ≠ "fact_e_total" by decide), hd6,
      hasCol_setCol, lookupCell_setCol,
      if_neg (show ("ecs_subscale_score" : String) ≠ "fact_g_total" by decide),
      subC5.2, Bool.true_or, Bool.true_or, if_pos rfl, subC5.1]
  refine ⟨setCol d7 "toi" (toiCell (lookupCell df)), ?_, ?_, ?_, ?_, ?_, ?_, ?_, ?_, ?_,
    ?_, ?_⟩
  · unfold calculate_fact_e_scores
    rw [run1, ok_bind, run2, ok_bind, run3, ok_bind, run4, ok_bind, run5, ok_bind]
    simp only [gmap, ok_bind, g1, g2, g3, g4]
    rw [show ((fact_g_items.map (fun c => itemScore (lookupCell df) c)).filterMap id).length
      = unionAnswered (lookupCell df) fact_g_items from rfl, factGCell_eq, ← hd6]
    simp only [emap, ok_bind, gtot6, ecs6]
    rw [show ((fact_e_items.map (fun c => itemScore (lookupCell df) c)).filterMap id).length
      = unionAnswered (lookupCell df) fact_e_items from rfl, factECell_eq, ← hd7]
    simp only [tmap, ok_bind, p7, f7, e7]
    rw [show ((toi_items.map (fun c => itemScore (lookupCell df) c)).filterMap id).length
      = unionAnswered (lookupCell df) toi_items from rfl, toiCell_eq]
    rfl
  · rw [lookupCell_setCol, if_neg (by decide), hd7, lookupCell_setCol, if_neg (by decide),
      hd6, lookupCell_setCol, if_neg (by decide), subP5.1]
  · rw [lookupCell_setCol, if_neg (by decide), hd7, lookupCell_setCol, if_neg (by decide),
      hd6, lookupCell_setCol, if_neg (by decide), subS5.1]
  · rw [lookupCell_setCol, if_neg (by decide), hd7, lookupCell_setCol, if_neg (by decide),
      hd6, lookupCell_setCol, if_neg (by decide), subE5.1]
  · rw [lookupCell_setCol, if_neg (by decide), hd7, lookupCell_setCol, if_neg (by decide),
      hd6, lookupCell_setCol, if_neg (by decide), subF5.1]
  · rw [lookupCell_setCol, if_neg (by decide), hd7, lookupCell_setCol, if_neg (by decide),
      hd6, lookupCell_setCol, if_neg (by decide), subC5.1]
  · rw [lookupCell_setCol, if_neg (by decide), hd7, lookupCell_setCol, if_neg (by decide),
      hd6, lookupCell_setCol, if_pos rfl]
  · rw [lookupCell_setCol, if_neg (by decide), hd7, lookupCell_setCol, if_pos rfl]
  · rw [lookupCell_setCol, if_pos rfl]
  · intro c hci
    rw [lookupCell_setCol, if_neg (col_ne_of_not_mem (hScoreOut c hci) (by decide))]
    exact (score7 c hci).1
  · intro c hnc
    have h7 := keepG5 c hnc
    have hg : c ≠ "fact_g_total" := col_ne_of_not_mem hnc (by decide)
    have he : c ≠ "fact_e_total" := col_ne_of_not_mem hnc (by decide)
    have ht : c ≠ "toi" := col_ne_of_not_mem hnc (by decide)
    refine ⟨?_, ?_⟩
    · rw [lookupCell_setCol, if_neg ht, hd7, lookupCell_setCol, if_neg he, hd6,
        lookupCell_setCol, if_neg hg, h7.1]
    · rw [hasCol_setCol, beq_eq_false_iff_ne.mpr ht, Bool.or_false, hd7, hasCol_setCol,
        beq_eq_false_iff_ne.mpr he, Bool.or_false, hd6, hasCol_setCol,
        beq_eq_false_iff_ne.mpr hg, Bool.or_false, h7.2]

/-! ### The FACT-G scoring pipeline, characterized on any table holding
all 27 item columns -/

set_option maxHeartbeats 4000000 in
open FACT_E_scoring in
lemma calculate_fact_g_scores_spec (df : DF)
    (hpres : ∀ c ∈ fact_g_items, hasCol df c = true) :
    ∃ out, FACT_G_scoring.calculate_fact_g_scores df = .ok out ∧
      lookupCell out "pwb_subscale_score" = pwbCell (lookupCell df) ∧
      lookupCell out "swb_subscale_score" = swbCell (lookupCell df) ∧
      lookupCell out "ewb_subscale_score" = ewbCell (lookupCell df) ∧
      lookupCell out "fwb_subscale_score" = fwbCell (lookupCell df) ∧
      lookupCell out "fact_g_total" = factGCell (lookupCell df) ∧
      (∀ c ∈ fact_g_items, lookupCell out (c ++ "_score") = itemScore (lookupCell df) c) ∧
      (∀ c, c ∉ written_names_g →
        lookupCell out c = lookupCell df c ∧ hasCol out c = hasCol df c) := by
  have hsubP : ∀ c ∈ pwb_cols, c ∈ fact_g_items := by decide
  have hsubS : ∀ c ∈ swb_cols, c ∈ fact_g_items := by decide
  have hsubE : ∀ c ∈ ewb_cols, c ∈ fact_g_items := by decide
  have hsubF : ∀ c ∈ fwb_cols, c ∈ fact_g_items := by decide
  have hlen7 : ∀ c ∈ fact_g_items, c.length ≤ 7 := by decide
  have hlen3 : ∀ c ∈ fact_g_items, 3 ≤ c.length := by decide
  have hDisjAll : ∀ c ∈ fact_g_items, ∀ c' ∈ fact_g_items, c ≠ c' ++ "_score" :=
    fun c hc c' hc' => ne_append_score_of_short
      (by have h1 := hlen7 c hc; have h2 := hlen3 c' hc'; omega)
  have hOut : ∀ c ∈ fact_g_items, c ∉ output_names_g := by decide
  have hScoreOut : ∀ c ∈ fact_g_items, (c ++ "_score") ∉ output_names_g := by decide
  have hRawNW : ∀ c ∈ fact_g_items, c ∉ written_names_g := by
    intro c hc hmem
    rcases List.mem_append.mp hmem with hm | hm
    · obtain ⟨c0, hc0, he⟩ := List.mem_map.mp hm
      exact hDisjAll c hc c0 hc0 he.symm
    · exact hOut c hc hm
  have hPS : ∀ c ∈ pwb_cols, c ∉ swb_cols := by decide
  have hPE : ∀ c ∈ pwb_cols, c ∉ ewb_cols := by decide
  have hPF : ∀ c ∈ pwb_cols, c ∉ fwb_cols := by decide
  have hSE : ∀ c ∈ swb_cols, c ∉ ewb_cols := by decide
  have hSF : ∀ c ∈ swb_cols, c ∉ fwb_cols := by decide
  have hEF : ∀ c ∈ ewb_cols, c ∉ fwb_cols := by decide
  have hTP : ∀ c ∈ pwb_cols, pwb_cols.contains c = all_reverse_items.contains c := by decide
  have hTS : ∀ c ∈ swb_cols,
      (List.nil : List String).contains c = all_reverse_items.contains c := by decide
  have hTE : ∀ c ∈ ewb_cols,
      ewb_reverse_items.contains c = all_reverse_items.contains c := by decide
  have hTF : ∀ c ∈ fwb_cols,
      (List.nil : List String).contains c = all_reverse_items.contains c := by decide
  have hRoute : ∀ c ∈ fact_g_items, c ∈ pwb_cols ∨ c ∈ swb_cols ∨ c ∈ ewb_cols ∨
      c ∈ fwb_cols := by decide
  -- Stage 1: PWB
  obtain ⟨d1, run1, sub1, subh1, keep1, sc1⟩ :=
    calculate_subscale_score_spec pwb_cols pwb_cols "pwb" df
      (fun c hc => hpres c (hsubP c hc))
      (fun c hc c' hc' => hDisjAll c (hsubP c hc) c' (hsubP c' hc'))
      (fun c hc => Ne.symm (col_ne_of_not_mem (hScoreOut c (hsubP c hc)) (by decide)))
  rw [show ("pwb" : String) ++ "_subscale_score" = "pwb_subscale_score" from rfl]
    at sub1 subh1 keep1
  have keepG1 : ∀ c, c ∉ written_names_g →
      lookupCell d1 c = lookupCell df c ∧ hasCol d1 c = hasCol df c := by
    intro c hnc
    exact keep1 c
      (fun c' hc' => col_ne_of_not_mem hnc
        (List.mem_append_left _ (List.mem_map_of_mem _ (hsubP c' hc'))))
      (col_ne_of_not_mem hnc (by decide))
  -- Stage 2: SWB
  obtain ⟨d2, run2, sub2, subh2, keep2, sc2⟩ :=
    calculate_subscale_score_spec [] swb_cols "swb" d1
      (fun c hc => by
        rw [(keepG1 c (hRawNW c (hsubS c hc))).2]; exact hpres c (hsubS c hc))
      (fun c hc c' hc' => hDisjAll c (hsubS c hc) c' (hsubS c' hc'))
      (fun c hc => Ne.symm (col_ne_of_not_mem (hScoreOut c (hsubS c hc)) (by decide)))
  rw [show ("swb" : String) ++ "_subscale_score" = "swb_subscale_score" from rfl]
    at sub2 subh2 keep2
  have keepG2 : ∀ c, c ∉ written_names_g →
      lookupCell d2 c = lookupCell df c ∧ hasCol d2 c = hasCol df c := by
    intro c hnc
    have h := keep2 c
      (fun c' hc' => col_ne_of_not_mem hnc
        (List.mem_append_left _ (List.mem_map_of_mem _ (hsubS c' hc'))))
      (col_ne_of_not_mem hnc (by decide))
    exact ⟨h.1.trans (keepG1 c hnc).1, h.2.trans (keepG1 c hnc).2⟩
  -- Stage 3: EWB
  obtain ⟨d3, run3, sub3, subh3, keep3, sc3⟩ :=
    calculate_subscale_score_spec ewb_reverse_items ewb_cols "ewb" d2
      (fun c hc => by
        rw [(keepG2 c (hRawNW c (hsubE c hc))).2]; exact hpres c (hsubE c hc))
      (fun c hc c' hc' => hDisjAll c (hsubE c hc) c' (hsubE c' hc'))
      (fun c hc => Ne.symm (col_ne_of_not_mem (hScoreOut c (hsubE c hc)) (by decide)))
  rw [show ("ewb" : String) ++ "_subscale_score" = "ewb_subscale_score" from rfl]
    at sub3 subh3 keep3
  have keepG3 : ∀ c, c ∉ written_names_g →
      lookupCell d3 c = lookupCell df c ∧ hasCol d3 c = hasCol df c := by
    intro c hnc
    have h := keep3 c
      (fun c' hc' => col_ne_of_not_mem hnc
        (List.mem_append_left _ (List.mem_map_of_mem _ (hsubE c' hc'))))
      (col_ne_of_not_mem hnc (by decide))
    exact ⟨h.1.trans (keepG2 c hnc).1, h.2.trans (keepG2 c hnc).2⟩
  -- Stage 4: FWB
  obtain ⟨d4, run4, sub4, subh4, keep4, sc4⟩ :=
    calculate_subscale_score_spec [] fwb_cols "fwb" d3
      (fun c hc => by
        rw [(keepG3 c (hRawNW c (hsubF c hc))).2]; exact hpres c (hsubF c hc))
      (fun c hc c' hc' => hDisjAll c (hsubF c hc) c' (hsubF c' hc'))
      (fun c hc => Ne.symm (col_ne_of_not_mem (hScoreOut c (hsubF c hc)) (by decide)))
  rw [show ("fwb" : String) ++ "_subscale_score" = "fwb_subscale_score" from rfl]
    at sub4 subh4 keep4
  have keepG4 : ∀ c, c ∉ written_names_g →
      lookupCell d4 c = lookupCell df c ∧ hasCol d4 c = hasCol df c := by
    intro c hnc
    have h := keep4 c
      (fun c' hc' => col_ne_of_not_mem hnc
        (List.mem_append_left _ (List.mem_map_of_mem _ (hsubF c' hc'))))
      (col_ne_of_not_mem hnc (by decide))
    exact ⟨h.1.trans (keepG3 c hnc).1, h.2.trans (keepG3 c hnc).2⟩
  -- The four subscale cells at the stage-4 frame
  have subP4 : lookupCell d4 "pwb_subscale_score" = pwbCell (lookupCell df) ∧
      hasCol d4 "pwb_subscale_score" = true := by
    have k2 := keep2 "pwb_subscale_score"
      (fun c' hc' => Ne.symm (col_ne_of_not_mem (hScoreOut c' (hsubS c' hc')) (by decide)))
      (by decide)
    have k3 := keep3 "pwb_subscale_score"
      (fun c' hc' => Ne.symm (col_ne_of_not_mem (hScoreOut c' (hsubE c' hc')) (by decide)))
      (by decide)
    have k4 := keep4 "pwb_subscale_score"
      (fun c' hc' => Ne.symm (col_ne_of_not_mem (hScoreOut c' (hsubF c' hc')) (by decide)))
      (by decide)
    refine ⟨?_, ?_⟩
    · rw [k4.1, k3.1, k2.1, sub1]
      rfl
    · rw [k4.2, k3.2, k2.2, subh1]
  have subS4 : lookupCell d4 "swb_subscale_score" = swbCell (lookupCell df) ∧
      hasCol d4 "swb_subscale_score" = true := by
    have k3 := keep3 "swb_subscale_score"
      (fun c' hc' => Ne.symm (col_ne_of_not_mem (hScoreOut c' (hsubE c' hc')) (by decide)))
      (by decide)
    have k4 := keep4 "swb_subscale_score"
      (fun c' hc' => Ne.symm (col_ne_of_not_mem (hScoreOut c' (hsubF c' hc')) (by decide)))
      (by decide)
    refine ⟨?_, ?_⟩
    · rw [k4.1, k3.1, sub2]
      exact subscaleCell_congr _ _ _ _
        (fun c hc => (keepG1 c (hRawNW c (hsubS c hc))).1)
    · rw [k4.2, k3.2, subh2]
  have subE4 : lookupCell d4 "ewb_subscale_score" = ewbCell (lookupCell df) ∧
      hasCol d4 "ewb_subscale_score" = true := by
    have k4 := keep4 "ewb_subscale_score"
      (fun c' hc' => Ne.symm (col_ne_of_not_mem (hScoreOut c' (hsubF c' hc')) (by decide)))
      (by decide)
    refine ⟨?_, ?_⟩
    · rw [k4.1, sub3]
      exact subscaleCell_congr _ _ _ _
        (fun c hc => (keepG2 c (hRawNW c (hsubE c hc))).1)
    · rw [k4.2, subh3]
  have subF4 : lookupCell d4 "fwb_subscale_score" = fwbCell (lookupCell df) ∧
      hasCol d4 "fwb_subscale_score" = true := by
    refine ⟨?_, subh4⟩
    rw [sub4]
    exact subscaleCell_congr _ _ _ _
      (fun c hc => (keepG3 c (hRawNW c (hsubF c hc))).1)
  -- All 27 item-score cells at the stage-4 frame
  have scoreAll4 : ∀ c ∈ fact_g_items,
      lookupCell d4 (c ++ "_score") = itemScore (lookupCell df) c ∧
      hasCol d4 (c ++ "_score") = true := by
    intro c hci
    have hscnout : ∀ x : String, x ∈ output_names_g → c ++ "_score" ≠ x :=
      fun x hx => col_ne_of_not_mem (hScoreOut c hci) hx
    rcases hRoute c hci with h | h | h | h
    · have s := sc1 c h
      have t2 := keep2 (c ++ "_score")
        (fun c' hc' => score_ne_of_ne (col_ne_of_not_mem (hPS c h) hc'))
        (hscnout _ (by decide))
      have t3 := keep3 (c ++ "_score")
        (fun c' hc' => score_ne_of_ne (col_ne_of_not_mem (hPE c h) hc'))
        (hscnout _ (by decide))
      have t4 := keep4 (c ++ "_score")
        (fun c' hc' => score_ne_of_ne (col_ne_of_not_mem (hPF c h) hc'))
        (hscnout _ (by decide))
      refine ⟨?_, ?_⟩
      · rw [t4.1, t3.1, t2.1, s.1]
        exact transformCell_congr _ _ _ _ (hTP c h)
      · rw [t4.2, t3.2, t2.2, s.2]
    · have s := sc2 c h
      have t3 := keep3 (c ++ "_score")
        (fun c' hc' => score_ne_of_ne (col_ne_of_not_mem (hSE c h) hc'))
        (hscnout _ (by decide))
      have t4 := keep4 (c ++ "_score")
        (fun c' hc' => score_ne_of_ne (col_ne_of_not_mem (hSF c h) hc'))
        (hscnout _ (by decide))
      refine ⟨?_, ?_⟩
      · rw [t4.1, t3.1, s.1, (keepG1 c (hRawNW c hci)).1]
        exact transformCell_congr _ _ _ _ (hTS c h)
      · rw [t4.2, t3.2, s.2]
    · have s := sc3 c h
      have t4 := keep4 (c ++ "_score")
        (fun c' hc' => score_ne_of_ne (col_ne_of_not_mem (hEF c h) hc'))
        (hscnout _ (by decide))
      refine ⟨?_, ?_⟩
      · rw [t4.1, s.1, (keepG2 c (hRawNW c hci)).1]
        exact transformCell_congr _ _ _ _ (hTE c h)
      · rw [t4.2, s.2]
    · have s := sc4 c h
      refine ⟨?_, ?_⟩
      · rw [s.1, (keepG3 c (hRawNW c hci)).1]
        exact transformCell_congr _ _ _ _ (hTF c h)
      · exact s.2
  have gmap : (fact_g_items.map (fun c => c ++ "_score")).mapM (fun c => getCol d4 c)
      = .ok (fact_g_items.map (fun c => itemScore (lookupCell df) c)) := by
    rw [mapM_getCol d4 _ (by
      intro x hx
      obtain ⟨c0, hc0, rfl⟩ := List.mem_map.mp hx
      exact (scoreAll4 c0 hc0).2)]
    rw [List.map_map]
    exact congrArg Except.ok
      (List.map_congr_left fun c hc => (scoreAll4 c hc).1)
  have g1 : getCol d4 "pwb_subscale_score" = .ok (pwbCell (lookupCell df)) := by
    rw [getCol_eq, subP4.2, if_pos rfl, subP4.1]
  have g2 : getCol d4 "swb_subscale_score" = .ok (swbCell (lookupCell df)) := by
    rw [getCol_eq, subS4.2, if_pos rfl, subS4.1]
  have g3 : getCol d4 "ewb_subscale_score" = .ok (ewbCell (lookupCell df)) := by
    rw [getCol_eq, subE4.2, if_pos rfl, subE4.1]
  have g4 : getCol d4 "fwb_subscale_score" = .ok (fwbCell (lookupCell df)) := by
    rw [getCol_eq, subF4.2, if_pos rfl, subF4.1]
  refine ⟨setCol d4 "fact_g_total" (factGCell (lookupCell df)), ?_, ?_, ?_, ?_, ?_, ?_,
    ?_, ?_⟩
  · unfold FACT_G_scoring.calculate_fact_g_scores
    rw [FG_calculate_subscale_score_eq,
      show FACT_G_scoring.pwb_cols = pwb_cols from rfl,
      show FACT_G_scoring.swb_cols = swb_cols from rfl,
      show FACT_G_scoring.ewb_cols = ewb_cols from rfl,
      show FACT_G_scoring.fwb_cols = fwb_cols from rfl,
      show FACT_G_scoring.ewb_reverse_items = ewb_reverse_items from rfl,
      show FACT_G_scoring.fact_g_items = fact_g_items from rfl]
    rw [run1, ok_bind, run2, ok_bind, run3, ok_bind, run4, ok_bind]
    simp only [gmap, ok_bind, g1, g2, g3, g4]
    rw [show ((fact_g_items.map (fun c => itemScore (lookupCell df) c)).filterMap id).length
      = unionAnswered (lookupCell df) fact_g_items from rfl, factGCell_eq]
    rfl
  · rw [lookupCell_setCol, if_neg (by decide), subP4.1]
  · rw [lookupCell_setCol, if_neg (by decide), subS4.1]
  · rw [lookupCell_setCol, if_neg (by decide), subE4.1]
  · rw [lookupCell_setCol, if_neg (by decide), subF4.1]
  · rw [lookupCell_setCol, if_pos rfl]
  · intro c hci
    rw [lookupCell_setCol, if_neg (col_ne_of_not_mem (hScoreOut c hci) (by decide))]
    exact (scoreAll4 c hci).1
  · intro c hnc
    have h4 := keepG4 c hnc
    have hg : c ≠ "fact_g_total" := col_ne_of_not_mem hnc (by decide)
    refine ⟨?_, ?_⟩
    · rw [lookupCell_setCol, if_neg hg, h4.1]
    · rw [hasCol_setCol, beq_eq_false_iff_ne.mpr hg, Bool.or_false, h4.2]

/-! ### Congruence in the cell assignment, and the scored tables of the
canonical full-column inputs -/

lemma unionAnswered_congr (get get' : String → Cell) (items : List String)
    (h : ∀ c ∈ items, get c = get' c) :
    unionAnswered get items = unionAnswered get' items := by
  unfold unionAnswered itemScore
  rw [List.map_congr_left (fun c hc => by rw [h c hc])]

lemma pwbCell_congr (get get' : String → Cell)
    (h : ∀ c ∈ FACT_E_scoring.pwb_cols, get c = get' c) : pwbCell get = pwbCell get' :=
  subscaleCell_congr _ _ _ _ h

lemma swbCell_congr (get get' : String → Cell)
    (h : ∀ c ∈ FACT_E_scoring.swb_cols, get c = get' c) : swbCell get = swbCell get' :=
  subscaleCell_congr _ _ _ _ h

lemma ewbCell_congr (get get' : String → Cell)
    (h : ∀ c ∈ FACT_E_scoring.ewb_cols, get c = get' c) : ewbCell get = ewbCell get' :=
  subscaleCell_congr _ _ _ _ h

lemma fwbCell_congr (get get' : String → Cell)
    (h : ∀ c ∈ FACT_E_scoring.fwb_cols, get c = get' c) : fwbCell get = fwbCell get' :=
  subscaleCell_congr _ _ _ _ h

lemma ecsCell_congr (get get' : String → Cell)
    (h : ∀ c ∈ FACT_E_scoring.ecs_cols, get c = get' c) : ecsCell get = ecsCell get' :=
  subscaleCell_congr _ _ _ _ h

lemma factGCell_congr (get get' : String → Cell)
    (h : ∀ c ∈ FACT_E_scoring.fact_g_items, get c = get' c) :
    factGCell get = factGCell get' := by
  have hP : ∀ c ∈ FACT_E_scoring.pwb_cols, c ∈ FACT_E_scoring.fact_g_items := by decide
  have hS : ∀ c ∈ FACT_E_scoring.swb_cols, c ∈ FACT_E_scoring.fact_g_items := by decide
  have hE : ∀ c ∈ FACT_E_scoring.ewb_cols, c ∈ FACT_E_scoring.fact_g_items := by decide
  have hF : ∀ c ∈ FACT_E_scoring.fwb_cols, c ∈ FACT_E_scoring.fact_g_items := by decide
  unfold factGCell
  rw [pwbCell_congr _ _ (fun c hc => h c (hP c hc)),
    swbCell_congr _ _ (fun c hc => h c (hS c hc)),
    ewbCell_congr _ _ (fun c hc => h c (hE c hc)),
    fwbCell_congr _ _ (fun c hc => h c (hF c hc)),
    unionAnswered_congr _ _ _ h]

lemma factECell_congr (get get' : String → Cell)
    (h : ∀ c ∈ FACT_E_scoring.fact_e_items, get c = get' c) :
    factECell get = factECell get' := by
  have hG : ∀ c ∈ FACT_E_scoring.fact_g_items, c ∈ FACT_E_scoring.fact_e_items := by decide
  have hC : ∀ c ∈ FACT_E_scoring.ecs_cols, c ∈ FACT_E_scoring.fact_e_items := by decide
  unfold factECell
  rw [factGCell_congr _ _ (fun c hc => h c (hG c hc)),
    ecsCell_congr _ _ (fun c hc => h c (hC c hc)),
    unionAnswered_congr _ _ _ h]

lemma toiCell_congr (get get' : String → Cell)
    (h : ∀ c ∈ FACT_E_scoring.fact_e_items, get c = get' c) :
    toiCell get = toiCell get' := by
  have hP : ∀ c ∈ FACT_E_scoring.pwb_cols, c ∈ FACT_E_scoring.fact_e_items := by decide
  have hF : ∀ c ∈ FACT_E_scoring.fwb_cols, c ∈ FACT_E_scoring.fact_e_items := by decide
  have hC : ∀ c ∈ FACT_E_scoring.ecs_cols, c ∈ FACT_E_scoring.fact_e_items := by decide
  have hT : ∀ c ∈ FACT_E_scoring.toi_items, c ∈ FACT_E_scoring.fact_e_items := by decide
  unfold toiCell
  rw [pwbCell_congr _ _ (fun c hc => h c (hP c hc)),
    fwbCell_congr _ _ (fun c hc => h c (hF c hc)),
    ecsCell_congr _ _ (fun c hc => h c (hC c hc)),
    unionAnswered_congr _ _ _ (fun c hc => h c (hT c hc))]

lemma lookupCell_dfFull (v : String → Cell) :
    ∀ c ∈ FACT_E_scoring.fact_e_items, lookupCell (dfFull v) c = v c := by
  intro c hc
  exact lookupCell_mkRow v _ c (List.mem_append_right _ hc)

lemma lookupCell_dfFullG (v : String → Cell) :
    ∀ c ∈ FACT_E_scoring.fact_g_items, lookupCell (dfFullG v) c = v c := by
  intro c hc
  exact lookupCell_mkRow v _ c
    (List.mem_append_right _ (show c ∈ FACT_G_scoring.fact_g_items from hc))

lemma FE_scored_spec (v : String → Cell) :
    FACT_E_scoring.calculate_fact_e_scores (dfFull v) = .ok (FE_scored (dfFull v)) ∧
    lookupCell (FE_scored (dfFull v)) "pwb_subscale_score" = pwbCell v ∧
    lookupCell (FE_scored (dfFull v)) "swb_subscale_score" = swbCell v ∧
    lookupCell (FE_scored (dfFull v)) "ewb_subscale_score" = ewbCell v ∧
    lookupCell (FE_scored (dfFull v)) "fwb_subscale_score" = fwbCell v ∧
    lookupCell (FE_scored (dfFull v)) "ecs_subscale_score" = ecsCell v ∧
    lookupCell (FE_scored (dfFull v)) "fact_g_total" = factGCell v ∧
    lookupCell (FE_scored (dfFull v)) "fact_e_total" = factECell v ∧
    lookupCell (FE_scored (dfFull v)) "toi" = toiCell v ∧
    (∀ c ∈ FACT_E_scoring.fact_e_items,
      lookupCell (FE_scored (dfFull v)) (c ++ "_score") = itemScore v c) := by
  have hcont : ∀ c ∈ FACT_E_scoring.fact_e_items,
      FACT_E_scoring.columns_to_extract.contains c = true := by decide
  obtain ⟨out, run, h1, h2, h3, h4, h5, h6, h7, h8, h9, _⟩ :=
    calculate_fact_e_scores_spec (dfFull v)
      (fun c hc => by rw [show dfFull v = mkRow v FACT_E_scoring.columns_to_extract from rfl,
        hasCol_mkRow]; exact hcont c hc)
  have hout : FE_scored (dfFull v) = out := by
    unfold FE_scored
    rw [run]
    rfl
  have hsubG : ∀ c ∈ FACT_E_scoring.fact_g_items, c ∈ FACT_E_scoring.fact_e_items := by
    decide
  have hsubP : ∀ c ∈ FACT_E_scoring.pwb_cols, c ∈ FACT_E_scoring.fact_e_items := by decide
  have hsubS : ∀ c ∈ FACT_E_scoring.swb_cols, c ∈ FACT_E_scoring.fact_e_items := by decide
  have hsubE : ∀ c ∈ FACT_E_scoring.ewb_cols, c ∈ FACT_E_scoring.fact_e_items := by decide
  have hsubF : ∀ c ∈ FACT_E_scoring.fwb_cols, c ∈ FACT_E_scoring.fact_e_items := by decide
  have hsubC : ∀ c ∈ FACT_E_scoring.ecs_cols, c ∈ FACT_E_scoring.fact_e_items := by decide
  rw [hout]
  refine ⟨run, ?_, ?_, ?_, ?_, ?_, ?_, ?_, ?_, ?_⟩
  · rw [h1]; exact pwbCell_congr _ _ (fun c hc => lookupCell_dfFull v c (hsubP c hc))
  · rw [h2]; exact swbCell_congr _ _ (fun c hc => lookupCell_dfFull v c (hsubS c hc))
  · rw [h3]; exact ewbCell_congr _ _ (fun c hc => lookupCell_dfFull v c (hsubE c hc))
  · rw [h4]; exact fwbCell_congr _ _ (fun c hc => lookupCell_dfFull v c (hsubF c hc))
  · rw [h5]; exact ecsCell_congr _ _ (fun c hc => lookupCell_dfFull v c (hsubC c hc))
  · rw [h6]; exact factGCell_congr _ _ (fun c hc => lookupCell_dfFull v c (hsubG c hc))
  · rw [h7]; exact factECell_congr _ _ (lookupCell_dfFull v)
  · rw [h8]; exact toiCell_congr _ _ (lookupCell_dfFull v)
  · intro c hc
    rw [h9 c hc]
    unfold itemScore
    rw [lookupCell_dfFull v c hc]

lemma FG_scored_spec (v : String → Cell) :
    FACT_G_scoring.calculate_fact_g_scores (dfFullG v) = .ok (FG_scored (dfFullG v)) ∧
    lookupCell (FG_scored (dfFullG v)) "pwb_subscale_score" = pwbCell v ∧
    lookupCell (FG_scored (dfFullG v)) "swb_subscale_score" = swbCell v ∧
    lookupCell (FG_scored (dfFullG v)) "ewb_subscale_score" = ewbCell v ∧
    lookupCell (FG_scored (dfFullG v)) "fwb_subscale_score" = fwbCell v ∧
    lookupCell (FG_scored (dfFullG v)) "fact_g_total" = factGCell v := by
  have hcont : ∀ c ∈ FACT_E_scoring.fact_g_items,
      FACT_G_scoring.columns_to_extract.contains c = true := by decide
  obtain ⟨out, run, h1, h2, h3, h4, h5, _, _⟩ :=
    calculate_fact_g_scores_spec (dfFullG v)
      (fun c hc => by rw [show dfFullG v = mkRow v FACT_G_scoring.columns_to_extract from rfl,
        hasCol_mkRow]; exact hcont c hc)
  have hout : FG_scored (dfFullG v) = out := by
    unfold FG_scored
    rw [run]
    rfl
  have hsubP : ∀ c ∈ FACT_E_scoring.pwb_cols, c ∈ FACT_E_scoring.fact_g_items := by decide
  have hsubS : ∀ c ∈ FACT_E_scoring.swb_cols, c ∈ FACT_E_scoring.fact_g_items := by decide
  have hsubE : ∀ c ∈ FACT_E_scoring.ewb_cols, c ∈ FACT_E_scoring.fact_g_items := by decide
  have hsubF : ∀ c ∈ FACT_E_scoring.fwb_cols, c ∈ FACT_E_scoring.fact_g_items := by decide
  rw [hout]
  refine ⟨run, ?_, ?_, ?_, ?_, ?_⟩
  · rw [h1]; exact pwbCell_congr _ _ (fun c hc => lookupCell_dfFullG v c (hsubP c hc))
  · rw [h2]; exact swbCell_congr _ _ (fun c hc => lookupCell_dfFullG v c (hsubS c hc))
  · rw [h3]; exact ewbCell_congr _ _ (fun c hc => lookupCell_dfFullG v c (hsubE c hc))
  · rw [h4]; exact fwbCell_congr _ _ (fun c hc => lookupCell_dfFullG v c (hsubF c hc))
  · rw [h5]; exact factGCell_congr _ _ (lookupCell_dfFullG v)

/-! ### Error propagation and presence analysis -/

lemma itemScoresLoop_error_head (df : DF) (c : String) (rest rev : List String)
    (h : hasCol df c = false) :
    FACT_E_scoring.itemScoresLoop df (c :: rest) rev = .error c := by
  unfold FACT_E_scoring.itemScoresLoop
  rw [List.foldlM_cons, getCol_eq df c, h, if_neg Bool.false_ne_true]
  rfl

lemma calculate_subscale_score_error_head (df : DF) (c : String) (rest rev : List String)
    (nm : String) (h : hasCol df c = false) :
    FACT_E_scoring.calculate_subscale_score df (c :: rest) rev nm = .error c := by
  unfold FACT_E_scoring.calculate_subscale_score
  rw [itemScoresLoop_error_head df c rest rev h, error_bind]

lemma itemScoresLoop_ok_hasCol (rev : List String) :
    ∀ (cols : List String) (df out : DF),
    FACT_E_scoring.itemScoresLoop df cols rev = .ok out →
    ∀ c ∈ cols, hasCol df c = true ∨ ∃ c' ∈ cols, c = c' ++ "_score" := by
  intro cols
  induction cols with
  | nil => intro df out _ c hc; cases hc
  | cons col rest ih =>
    intro df out hrun c hc
    cases hcol : hasCol df col with
    | false =>
      rw [itemScoresLoop_error_head df col rest rev hcol] at hrun
      cases hrun
    | true =>
      have hstep : FACT_E_scoring.itemScoresLoop df (col :: rest) rev
          = FACT_E_scoring.itemScoresLoop
              (setCol df (col ++ "_score")
                (if rev.contains col then (lookupCell df col).map (fun x => (4 : ℚ) - x)
                 else lookupCell df col)) rest rev := by
        unfold FACT_E_scoring.itemScoresLoop
        rw [List.foldlM_cons, getCol_eq df col, hcol, if_pos rfl]
        rfl
      rw [hstep] at hrun
      rcases List.mem_cons.mp hc with hceq | hcr
      · subst hceq; exact Or.inl hcol
      · rcases ih _ out hrun c hcr with hl | ⟨c', hc', he⟩
        · rw [hasCol_setCol] at hl
          rcases Bool.or_eq_true_iff.mp hl with h1 | h1
          · exact Or.inl h1
          · exact Or.inr ⟨col, List.mem_cons_self col rest, eq_of_beq h1⟩
        · exact Or.inr ⟨c', List.mem_cons_of_mem col hc', he⟩

lemma calculate_subscale_score_ok_hasCol (df out : DF) (cols rev : List String)
    (nm : String) (h : FACT_E_scoring.calculate_subscale_score df cols rev nm = .ok out) :
    ∀ c ∈ cols, hasCol df c = true ∨ ∃ c' ∈ cols, c = c' ++ "_score" := by
  cases hl : FACT_E_scoring.itemScoresLoop df cols rev with
  | error e =>
    unfold FACT_E_scoring.calculate_subscale_score at h
    rw [hl, error_bind] at h
    cases h
  | ok mid => exact itemScoresLoop_ok_hasCol rev cols df mid hl

set_option maxHeartbeats 2000000 in
open FACT_E_scoring in
lemma calculate_fact_e_scores_ok_presence (df out : DF)
    (h : calculate_fact_e_scores df = .ok out) :
    ∀ c ∈ fact_e_items, hasCol df c = true := by
  have hsubP : ∀ c ∈ pwb_cols, c ∈ fact_e_items := by decide
  have hsubS : ∀ c ∈ swb_cols, c ∈ fact_e_items := by decide
  have hsubE : ∀ c ∈ ewb_cols, c ∈ fact_e_items := by decide
  have hsubF : ∀ c ∈ fwb_cols, c ∈ fact_e_items := by decide
  have hsubC : ∀ c ∈ ecs_cols, c ∈ fact_e_items := by decide
  have hlen7 : ∀ c ∈ fact_e_items, c.length ≤ 7 := by decide
  have hlen3 : ∀ c ∈ fact_e_items, 3 ≤ c.length := by decide
  have hDisjAll : ∀ c ∈ fact_e_items, ∀ c' ∈ fact_e_items, c ≠ c' ++ "_score" :=
    fun c hc c' hc' => ne_append_score_of_short
      (by have h1 := hlen7 c hc; have h2 := hlen3 c' hc'; omega)
  have hOut : ∀ c ∈ fact_e_items, c ∉ output_names := by decide
  have hRoute : ∀ c ∈ fact_e_items, c ∈ pwb_cols ∨ c ∈ swb_cols ∨ c ∈ ewb_cols ∨
      c ∈ fwb_cols ∨ c ∈ ecs_cols := by decide
  unfold calculate_fact_e_scores at h
  -- Stage 1: PWB
  cases s1 : calculate_subscale_score df pwb_cols pwb_cols "pwb" with
  | error e => rw [s1, error_bind] at h; cases h
  | ok d1 =>
  rw [s1, ok_bind] at h
  have presP : ∀ c ∈ pwb_cols, hasCol df c = true := by
    intro c hc
    rcases calculate_subscale_score_ok_hasCol df d1 pwb_cols pwb_cols "pwb" s1 c hc with
      hl | ⟨c', hc', he⟩
    · exact hl
    · exact absurd he (hDisjAll c (hsubP c hc) c' (hsubP c' hc'))
  obtain ⟨d1x, run1, _, _, keep1, _⟩ :=
    calculate_subscale_score_spec pwb_cols pwb_cols "pwb" df presP
      (fun c hc c' hc' => hDisjAll c (hsubP c hc) c' (hsubP c' hc'))
      (by decide)
  have hd1x : d1x = d1 := Except.ok.inj (run1.symm.trans s1)
  subst hd1x
  have T1 : ∀ c ∈ fact_e_items, hasCol d1x c = hasCol df c := fun c hc =>
    (keep1 c (fun c' hc' => hDisjAll c hc c' (hsubP c' hc'))
      (col_ne_of_not_mem (hOut c hc) (by decide))).2
  -- Stage 2: SWB
  cases s2 : calculate_subscale_score d1x swb_cols [] "swb" with
  | error e => rw [s2, error_bind] at h; cases h
  | ok d2 =>
  rw [s2, ok_bind] at h
  have presS : ∀ c ∈ swb_cols, hasCol df c = true := by
    intro c hc
    have hci := hsubS c hc
    rcases calculate_subscale_score_ok_hasCol d1x d2 swb_cols [] "swb" s2 c hc with
      hl | ⟨c', hc', he⟩
    · rwa [T1 c hci] at hl
    · exact absurd he (hDisjAll c hci c' (hsubS c' hc'))
  obtain ⟨d2x, run2, _, _, keep2, _⟩ :=
    calculate_subscale_score_spec [] swb_cols "swb" d1x
      (fun c hc => by rw [T1 c (hsubS c hc)]; exact presS c hc)
      (fun c hc c' hc' => hDisjAll c (hsubS c hc) c' (hsubS c' hc'))
      (by decide)
  have hd2x : d2x = d2 := Except.ok.inj (run2.symm.trans s2)
  subst hd2x
  have T2 : ∀ c ∈ fact_e_items, hasCol d2x c = hasCol d1x c := fun c hc =>
    (keep2 c (fun c' hc' => hDisjAll c hc c' (hsubS c' hc'))
      (col_ne_of_not_mem (hOut c hc) (by decide))).2
  -- Stage 3: EWB
  cases s3 : calculate_subscale_score d2x ewb_cols ewb_reverse_items "ewb" with
  | error e => rw [s3, error_bind] at h; cases h
  | ok d3 =>
  rw [s3, ok_bind] at h
  have presE : ∀ c ∈ ewb_cols, hasCol df c = true := by
    intro c hc
    have hci := hsubE c hc
    rcases calculate_subscale_score_ok_hasCol d2x d3 ewb_cols ewb_reverse_items "ewb"
      s3 c hc with hl | ⟨c', hc', he⟩
    · rwa [T2 c hci, T1 c hci] at hl
    · exact absurd he (hDisjAll c hci c' (hsubE c' hc'))
  obtain ⟨d3x, run3, _, _, keep3, _⟩ :=
    calculate_subscale_score_spec ewb_reverse_items ewb_cols "ewb" d2x
      (fun c hc => by
        rw [T2 c (hsubE c hc), T1 c (hsubE c hc)]; exact presE c hc)
      (fun c hc c' hc' => hDisjAll c (hsubE c hc) c' (hsubE c' hc'))
      (by decide)
  have hd3x : d3x = d3 := Except.ok.inj (run3.symm.trans s3)
  subst hd3x
  have T3 : ∀ c ∈ fact_e_items, hasCol d3x c = hasCol d2x c := fun c hc =>
    (keep3 c (fun c' hc' => hDisjAll c hc c' (hsubE c' hc'))
      (col_ne_of_not_mem (hOut c hc) (by decide))).2
  -- Stage 4: FWB
  cases s4 : calculate_subscale_score d3x fwb_cols [] "fwb" with
  | error e => rw [s4, error_bind] at h; cases h
  | ok d4 =>
  rw [s4, ok_bind] at h
  have presF : ∀ c ∈ fwb_cols, hasCol df c = true := by
    intro c hc
    have hci := hsubF c hc
    rcases calculate_subscale_score_ok_hasCol d3x d4 fwb_cols [] "fwb" s4 c hc with
      hl | ⟨c', hc', he⟩
    · rwa [T3 c hci, T2 c hci, T1 c hci] at hl
    · exact absurd he (hDisjAll c hci c' (hsubF c' hc'))
  obtain ⟨d4x, run4, _, _, keep4, _⟩ :=
    calculate_subscale_score_spec [] fwb_cols "fwb" d3x
      (fun c hc => by
        rw [T3 c (hsubF c hc), T2 c (hsubF c hc), T1 c (hsubF c hc)]; exact presF c hc)
      (fun c hc c' hc' => hDisjAll c (hsubF c hc) c' (hsubF c' hc'))
      (by decide)
  have hd4x : d4x = d4 := Except.ok.inj (run4.symm.trans s4)
  subst hd4x
  have T4 : ∀ c ∈ fact_e_items, hasCol d4x c = hasCol d3x c := fun c hc =>
    (keep4 c (fun c' hc' => hDisjAll c hc c' (hsubF c' hc'))
      (col_ne_of_not_mem (hOut c hc) (by decide))).2
  -- Stage 5: ECS
  cases s5 : calculate_subscale_score d4x ecs_cols ecs_reverse_items "ecs" with
  | error e => rw [s5, error_bind] at h; cases h
  | ok d5 =>
  have presC : ∀ c ∈ ecs_cols, hasCol df c = true := by
    intro c hc
    have hci := hsubC c hc
    rcases calculate_subscale_score_ok_hasCol d4x d5 ecs_cols ecs_reverse_items "ecs"
      s5 c hc with hl | ⟨c', hc', he⟩
    · rwa [T4 c hci, T3 c hci, T2 c hci, T1 c hci] at hl
    · exact absurd he (hDisjAll c hci c' (hsubC c' hc'))
  intro c hc
  rcases hRoute c hc with hg | hg | hg | hg | hg
  · exact presP c hg
  · exact presS c hg
  · exact presE c hg
  · exact presF c hg
  · exact presC c hg

/-! ### Column extraction -/

lemma mkRow_congr (v v' : String → Cell) (cols : List String)
    (h : ∀ c ∈ cols, v c = v' c) : mkRow v cols = mkRow v' cols :=
  List.map_congr_left (fun c hc => by rw [h c hc])

lemma contains_filter (L : List String) (p : String → Bool) (c : String) :
    (L.filter p).contains c = (L.contains c && p c) := by
  induction L with
  | nil => simp [List.contains]
  | cons a t ih =>
    by_cases hpa : p a = true
    · rw [List.filter_cons_of_pos hpa, List.contains_cons, List.contains_cons, ih]
      by_cases hac : (c == a) = true
      · rw [hac, Bool.true_or, Bool.true_or, Bool.true_and, eq_of_beq hac, hpa]
      · rw [Bool.not_eq_true] at hac
        rw [hac, Bool.false_or, Bool.false_or]
    · rw [Bool.not_eq_true] at hpa
      rw [List.filter_cons_of_neg (by rw [hpa]; exact Bool.false_ne_true),
        List.contains_cons, ih]
      by_cases hac : (c == a) = true
      · rw [hac, Bool.true_or, Bool.true_and, eq_of_beq hac, hpa, Bool.and_false]
      · rw [Bool.not_eq_true] at hac
        rw [hac, Bool.false_or]

lemma contains_of_mem {L : List String} {c : String} (h : c ∈ L) : L.contains c = true := by
  simp [List.contains, List.elem_eq_mem, h]

lemma hasCol_extract_fact_e (df : DF) (c : String) :
    hasCol (FACT_E_scoring.extract_fact_e_columns df) c
      = (FACT_E_scoring.columns_to_extract.contains c && hasCol df c) := by
  unfold FACT_E_scoring.extract_fact_e_columns
  rw [hasCol_mkRow, contains_filter]

lemma lookupCell_extract_fact_e (df : DF) (c : String)
    (hc : c ∈ FACT_E_scoring.columns_to_extract) (hdf : hasCol df c = true) :
    lookupCell (FACT_E_scoring.extract_fact_e_columns df) c = lookupCell df c := by
  unfold FACT_E_scoring.extract_fact_e_columns
  exact lookupCell_mkRow _ _ c (List.mem_filter.mpr ⟨hc, hdf⟩)

lemma extract_extract (df : DF) :
    FACT_E_scoring.extract_fact_e_columns (FACT_E_scoring.extract_fact_e_columns df)
      = FACT_E_scoring.extract_fact_e_columns df := by
  have hfil : FACT_E_scoring.columns_to_extract.filter
        (fun c => hasCol (FACT_E_scoring.extract_fact_e_columns df) c)
      = FACT_E_scoring.columns_to_extract.filter (fun c => hasCol df c) :=
    List.filter_congr (fun c hc => by
      rw [hasCol_extract_fact_e, contains_of_mem hc, Bool.true_and])
  show mkRow (fun c => lookupCell (FACT_E_scoring.extract_fact_e_columns df) c)
      (FACT_E_scoring.columns_to_extract.filter
        (fun c => hasCol (FACT_E_scoring.extract_fact_e_columns df) c))
    = FACT_E_scoring.extract_fact_e_columns df
  rw [hfil]
  exact mkRow_congr _ _ _ (fun c hc => by
    have hm := List.mem_filter.mp hc
    exact lookupCell_extract_fact_e df c hm.1 hm.2)

set_option maxHeartbeats 2000000 in
open FACT_E_scoring in
lemma calculate_fact_e_scores_error_of_no_ecs (v : String → Cell) :
    calculate_fact_e_scores (mkRow v FACT_G_scoring.columns_to_extract)
      = .error "a_hn1" := by
  have hsubP : ∀ c ∈ pwb_cols, c ∈ fact_g_items := by decide
  have hsubS : ∀ c ∈ swb_cols, c ∈ fact_g_items := by decide
  have hsubE : ∀ c ∈ ewb_cols, c ∈ fact_g_items := by decide
  have hsubF : ∀ c ∈ fwb_cols, c ∈ fact_g_items := by decide
  have hlen7 : ∀ c ∈ fact_g_items, c.length ≤ 7 := by decide
  have hlen3 : ∀ c ∈ fact_g_items, 3 ≤ c.length := by decide
  have hDisjAll : ∀ c ∈ fact_g_items, ∀ c' ∈ fact_g_items, c ≠ c' ++ "_score" :=
    fun c hc c' hc' => ne_append_score_of_short
      (by have h1 := hlen7 c hc; have h2 := hlen3 c' hc'; omega)
  have hOutG : ∀ c ∈ fact_g_items, c ∉ output_names_g := by decide
  have hScoreOutG : ∀ c ∈ fact_g_items, (c ++ "_score") ∉ output_names_g := by decide
  have hpresG : ∀ c ∈ fact_g_items, hasCol (mkRow v FACT_G_scoring.columns_to_extract) c
      = true := by
    intro c hc
    rw [hasCol_mkRow]
    exact (by decide : ∀ c ∈ fact_g_items,
      FACT_G_scoring.columns_to_extract.contains c = true) c hc
  obtain ⟨d1, run1, _, _, keep1, _⟩ :=
    calculate_subscale_score_spec pwb_cols pwb_cols "pwb"
      (mkRow v FACT_G_scoring.columns_to_extract)
      (fun c hc => hpresG c (hsubP c hc))
      (fun c hc c' hc' => hDisjAll c (hsubP c hc) c' (hsubP c' hc'))
      (fun c hc => Ne.symm (col_ne_of_not_mem (hScoreOutG c (hsubP c hc)) (by decide)))
  have T1 : ∀ c ∈ fact_g_items, hasCol d1 c = true := by
    intro c hc
    rw [(keep1 c (fun c' hc' => hDisjAll c hc c' (hsubP c' hc'))
      (col_ne_of_not_mem (hOutG c hc) (by decide))).2]
    exact hpresG c hc
  obtain ⟨d2, run2, _, _, keep2, _⟩ :=
    calculate_subscale_score_spec [] swb_cols "swb" d1
      (fun c hc => T1 c (hsubS c hc))
      (fun c hc c' hc' => hDisjAll c (hsubS c hc) c' (hsubS c' hc'))
      (fun c hc => Ne.symm (col_ne_of_not_mem (hScoreOutG c (hsubS c hc)) (by decide)))
  have T2 : ∀ c ∈ fact_g_items, hasCol d2 c = true := by
    intro c hc
    rw [(keep2 c (fun c' hc' => hDisjAll c hc c' (hsubS c' hc'))
      (col_ne_of_not_mem (hOutG c hc) (by decide))).2]
    exact T1 c hc
  obtain ⟨d3, run3, _, _, keep3, _⟩ :=
    calculate_subscale_score_spec ewb_reverse_items ewb_cols "ewb" d2
      (fun c hc => T2 c (hsubE c hc))
      (fun c hc c' hc' => hDisjAll c (hsubE c hc) c' (hsubE c' hc'))
      (fun c hc => Ne.symm (col_ne_of_not_mem (hScoreOutG c (hsubE c hc)) (by decide)))
  have T3 : ∀ c ∈ fact_g_items, hasCol d3 c = true := by
    intro c hc
    rw [(keep3 c (fun c' hc' => hDisjAll c hc c' (hsubE c' hc'))
      (col_ne_of_not_mem (hOutG c hc) (by decide))).2]
    exact T2 c hc
  obtain ⟨d4, run4, _, _, keep4, _⟩ :=
    calculate_subscale_score_spec [] fwb_cols "fwb" d3
      (fun c hc => T3 c (hsubF c hc))
      (fun c hc c' hc' => hDisjAll c (hsubF c hc) c' (hsubF c' hc'))
      (fun c hc => Ne.symm (col_ne_of_not_mem (hScoreOutG c (hsubF c hc)) (by decide)))
  have hmiss : hasCol d4 "a_hn1" = false := by
    have k4 := keep4 "a_hn1"
      (fun c' hc' => ne_append_score_of_short
        (by rw [show ("a_hn1" : String).length = 5 from rfl]; omega))
      (by decide)
    have k3 := keep3 "a_hn1"
      (fun c' hc' => ne_append_score_of_short
        (by rw [show ("a_hn1" : String).length = 5 from rfl]; omega))
      (by decide)
    have k2 := keep2 "a_hn1"
      (fun c' hc' => ne_append_score_of_short
        (by rw [show ("a_hn1" : String).length = 5 from rfl]; omega))
      (by decide)
    have k1 := keep1 "a_hn1"
      (fun c' hc' => ne_append_score_of_short
        (by rw [show ("a_hn1" : String).length = 5 from rfl]; omega))
      (by decide)
    rw [k4.2, k3.2, k2.2, k1.2, hasCol_mkRow]
    decide
  unfold calculate_fact_e_scores
  rw [run1, ok_bind, run2, ok_bind, run3, ok_bind, run4, ok_bind,
    show calculate_subscale_score d4 ecs_cols ecs_reverse_items "ecs" = .error "a_hn1" from
      calculate_subscale_score_error_head d4 "a_hn1"
        ["a_hn2", "a_hn3", "a_hn4", "a_hn5", "a_hn7", "a_hn10",
         "a_e1", "a_e2", "a_e3", "a_e4", "a_e5", "a_e6", "a_e7",
         "a_c6", "a_c2", "a_act11"] ecs_reverse_items "ecs" hmiss,
    error_bind]

/-! ### Arithmetic facts about the derived cells -/

lemma addCell_isSome (a b : Cell) : (addCell a b).isSome = (a.isSome && b.isSome) := by
  cases a <;> cases b <;> rfl

lemma addCell_some (a b : ℚ) : addCell (some a) (some b) = some (a + b) := rfl

lemma subscaleCell_isSome (get : String → Cell) (cols rev : List String) :
    (subscaleCell get cols rev).isSome = true ↔
      (answeredCount get cols rev : ℚ) ≥ (cols.length : ℚ) / 2 := by
  unfold subscaleCell
  by_cases h : (answeredCount get cols rev : ℚ) ≥ (cols.length : ℚ) / 2
  · rw [if_pos h]
    simp [h]
  · rw [if_neg h]
    simp [h]

lemma half_gate_iff (t x : ℕ) : ((x : ℚ) ≥ (t : ℚ) / 2) ↔ t ≤ 2 * x := by
  rw [ge_iff_le, div_le_iff (by norm_num : (0 : ℚ) < 2),
    show (x : ℚ) * 2 = ((2 * x : ℕ) : ℚ) from by push_cast; ring, Nat.cast_le]

lemma answeredList_bounds (get : String → Cell) (cols rev : List String)
    (h : ∀ c ∈ cols, ∀ x : ℚ, get c = some x → 0 ≤ x ∧ x ≤ 4) :
    ∀ y ∈ answeredList get cols rev, 0 ≤ y ∧ y ≤ 4 := by
  intro y hy
  unfold answeredList at hy
  obtain ⟨o, ho, hid⟩ := List.mem_filterMap.mp hy
  obtain ⟨c, hc, htr⟩ := List.mem_map.mp ho
  rw [show id o = o from rfl] at hid
  subst hid
  unfold transformCell at htr
  by_cases hrev : rev.contains c = true
  · rw [if_pos hrev] at htr
    cases hg : get c with
    | none => rw [hg] at htr; cases htr
    | some x =>
      rw [hg] at htr
      have hx := h c hc x hg
      have : 4 - x = y := Option.some.inj htr
      constructor <;> [linarith [hx.2]; linarith [hx.1]]
  · rw [if_neg hrev] at htr
    exact h c hc y htr

lemma sum_bounds (l : List ℚ) (h : ∀ y ∈ l, 0 ≤ y ∧ y ≤ 4) :
    0 ≤ l.sum ∧ l.sum ≤ 4 * l.length := by
  induction l with
  | nil => simp
  | cons a t ih =>
    have ha := h a (List.mem_cons_self a t)
    have ht := ih (fun y hy => h y (List.mem_cons_of_mem a hy))
    rw [List.sum_cons, List.length_cons]
    constructor
    · linarith [ha.1, ht.1]
    · push_cast
      linarith [ha.2, ht.2]

lemma subscaleCell_bounds (get : String → Cell) (cols rev : List String)
    (h : ∀ c ∈ cols, ∀ x : ℚ, get c = some x → 0 ≤ x ∧ x ≤ 4) :
    ∀ y : ℚ, subscaleCell get cols rev = some y → 0 ≤ y ∧ y ≤ 4 * cols.length := by
  intro y hy
  unfold subscaleCell at hy
  by_cases hg : (answeredCount get cols rev : ℚ) ≥ (cols.length : ℚ) / 2
  · rw [if_pos hg] at hy
    have hval := Option.some.inj hy
    have hbounds := sum_bounds (answeredList get cols rev)
      (answeredList_bounds get cols rev h)
    by_cases hc0 : answeredCount get cols rev = 0
    · have hnil : answeredList get cols rev = [] :=
        List.eq_nil_of_length_eq_zero hc0
      rw [← hval, show answeredCount get cols rev = (answeredList get cols rev).length
        from rfl, hnil]
      norm_num
    · have hcpos : (0 : ℚ) < (answeredCount get cols rev : ℚ) := by
        have : 0 < answeredCount get cols rev := Nat.pos_of_ne_zero hc0
        exact_mod_cast this
      have hlen : ((answeredList get cols rev).length : ℚ)
          = (answeredCount get cols rev : ℚ) := rfl
      constructor
      · rw [← hval]
        exact div_nonneg (mul_nonneg hbounds.1 (by positivity)) (le_of_lt hcpos)
      · rw [← hval]
        rw [div_le_iff₀ hcpos]
        calc (answeredList get cols rev).sum * (cols.length : ℚ)
            ≤ (4 * (answeredCount get cols rev : ℚ)) * (cols.length : ℚ) := by
              apply mul_le_mul_of_nonneg_right _ (by positivity)
              rw [← hlen]
              exact hbounds.2
          _ = 4 * (cols.length : ℚ) * (answeredCount get cols rev : ℚ) := by ring
  · rw [if_neg hg] at hy
    cases hy

lemma factGCell_some (get : String → Cell) (y : ℚ) (h : factGCell get = some y) :
    ∃ a b c d : ℚ, pwbCell get = some a ∧ swbCell get = some b ∧ ewbCell get = some c ∧
      fwbCell get = some d ∧ y = a + b + c + d := by
  unfold factGCell at h
  by_cases hc : (pwbCell get).isSome = true ∧ (swbCell get).isSome = true ∧
      (ewbCell get).isSome = true ∧ (fwbCell get).isSome = true ∧
      22 ≤ unionAnswered get FACT_E_scoring.fact_g_items
  · rw [if_pos hc] at h
    obtain ⟨a, ha⟩ := Option.isSome_iff_exists.mp hc.1
    obtain ⟨b, hb⟩ := Option.isSome_iff_exists.mp hc.2.1
    obtain ⟨c, hcc⟩ := Option.isSome_iff_exists.mp hc.2.2.1
    obtain ⟨d, hd⟩ := Option.isSome_iff_exists.mp hc.2.2.2.1
    rw [ha, hb, hcc, hd] at h
    exact ⟨a, b, c, d, ha, hb, hcc, hd, (Option.some.inj h).symm⟩
  · rw [if_neg hc] at h
    cases h

lemma factECell_some (get : String → Cell) (y : ℚ) (h : factECell get = some y) :
    ∃ a b : ℚ, factGCell get = some a ∧ ecsCell get = some b ∧ y = a + b := by
  unfold factECell at h
  by_cases hc : (factGCell get).isSome = true ∧ (ecsCell get).isSome = true ∧
      36 ≤ unionAnswered get FACT_E_scoring.fact_e_items
  · rw [if_pos hc] at h
    obtain ⟨a, ha⟩ := Option.isSome_iff_exists.mp hc.1
    obtain ⟨b, hb⟩ := Option.isSome_iff_exists.mp hc.2.1
    rw [ha, hb] at h
    exact ⟨a, b, ha, hb, (Option.some.inj h).symm⟩
  · rw [if_neg hc] at h
    cases h

lemma toiCell_some (get : String → Cell) (y : ℚ) (h : toiCell get = some y) :
    ∃ a b c : ℚ, pwbCell get = some a ∧ fwbCell get = some b ∧ ecsCell get = some c ∧
      y = a + b + c := by
  unfold toiCell at h
  by_cases hc : (pwbCell get).isSome = true ∧ (fwbCell get).isSome = true ∧
      (ecsCell get).isSome = true ∧ 25 ≤ unionAnswered get FACT_E_scoring.toi_items
  · rw [if_pos hc] at h
    obtain ⟨a, ha⟩ := Option.isSome_iff_exists.mp hc.1
    obtain ⟨b, hb⟩ := Option.isSome_iff_exists.mp hc.2.1
    obtain ⟨c, hcc⟩ := Option.isSome_iff_exists.mp hc.2.2.1
    rw [ha, hb, hcc] at h
    exact ⟨a, b, c, ha, hb, hcc, (Option.some.inj h).symm⟩
  · rw [if_neg hc] at h
    cases h

/-! ### The claims -/

/-- Claim C1.  The spec asserts that on an input table from which some
expected item columns are entirely absent, extraction followed by scoring
completes without error, treating absent columns as missing.  The code
contradicts this: `extract_fact_e_columns` does tolerate the absence (it
projects onto the present columns, returning the table unchanged here),
but `calculate_subscale_score` then evaluates `4 - df["gp1"]`, and
selecting the absent label `gp1` raises a `KeyError`, which `main`
reports with exit status 1.  The extraction step's explicit filtering to
existing columns shows the spec's tolerance is the intent and the
downstream selection the slip. -/
theorem claim_C1_absent_column_raises :
    FACT_E_scoring.run_scoring df_missing_gp1 = .error "gp1" ∧
    FACT_E_scoring.extract_fact_e_columns df_missing_gp1 = df_missing_gp1 :=
  ⟨rfl, rfl⟩

/-- Claim C3.  For every respondent and every subscale, the subscale
score is numeric exactly when `answered >= total / 2` under true
division; for the 7-item subscales the 3.5 threshold is equivalent to
`answered >= 4`, for the 6-item EWB to `>= 3`, and for the 17-item ECS
to `>= 9`. -/
theorem claim_C3_half_gate (v : String → Cell) :
    ((lookupCell (FE_scored (dfFull v)) "pwb_subscale_score").isSome = true ↔
      (answeredCount v FACT_E_scoring.pwb_cols FACT_E_scoring.pwb_cols : ℚ)
        ≥ (FACT_E_scoring.pwb_cols.length : ℚ) / 2) ∧
    ((lookupCell (FE_scored (dfFull v)) "swb_subscale_score").isSome = true ↔
      (answeredCount v FACT_E_scoring.swb_cols [] : ℚ)
        ≥ (FACT_E_scoring.swb_cols.length : ℚ) / 2) ∧
    ((lookupCell (FE_scored (dfFull v)) "ewb_subscale_score").isSome = true ↔
      (answeredCount v FACT_E_scoring.ewb_cols FACT_E_scoring.ewb_reverse_items : ℚ)
        ≥ (FACT_E_scoring.ewb_cols.length : ℚ) / 2) ∧
    ((lookupCell (FE_scored (dfFull v)) "fwb_subscale_score").isSome = true ↔
      (answeredCount v FACT_E_scoring.fwb_cols [] : ℚ)
        ≥ (FACT_E_scoring.fwb_cols.length : ℚ) / 2) ∧
    ((lookupCell (FE_scored (dfFull v)) "ecs_subscale_score").isSome = true ↔
      (answeredCount v FACT_E_scoring.ecs_cols FACT_E_scoring.ecs_reverse_items : ℚ)
        ≥ (FACT_E_scoring.ecs_cols.length : ℚ) / 2) ∧
    ((lookupCell (FE_scored (dfFull v)) "pwb_subscale_score").isSome = true ↔
      4 ≤ answeredCount v FACT_E_scoring.pwb_cols FACT_E_scoring.pwb_cols) ∧
    ((lookupCell (FE_scored (dfFull v)) "swb_subscale_score").isSome = true ↔
      4 ≤ answeredCount v FACT_E_scoring.swb_cols []) ∧
    ((lookupCell (FE_scored (dfFull v)) "fwb_subscale_score").isSome = true ↔
      4 ≤ answeredCount v FACT_E_scoring.fwb_cols []) ∧
    ((lookupCell (FE_scored (dfFull v)) "ewb_subscale_score").isSome = true ↔
      3 ≤ answeredCount v FACT_E_scoring.ewb_cols FACT_E_scoring.ewb_reverse_items) ∧
    ((lookupCell (FE_scored (dfFull v)) "ecs_subscale_score").isSome = true ↔
      9 ≤ answeredCount v FACT_E_scoring.ecs_cols FACT_E_scoring.ecs_reverse_items) := by
  obtain ⟨_, h1, h2, h3, h4, h5, _, _, _, _⟩ := FE_scored_spec v
  refine ⟨?_, ?_, ?_, ?_, ?_, ?_, ?_, ?_, ?_, ?_⟩
  · rw [h1]; exact subscaleCell_isSome v _ _
  · rw [h2]; exact subscaleCell_isSome v _ _
  · rw [h3]; exact subscaleCell_isSome v _ _
  · rw [h4]; exact subscaleCell_isSome v _ _
  · rw [h5]; exact subscaleCell_isSome v _ _
  · rw [h1]
    exact (subscaleCell_isSome v _ _).trans (by
      rw [show ((FACT_E_scoring.pwb_cols.length : ℕ) : ℚ) = ((7 : ℕ) : ℚ) from rfl,
        half_gate_iff]
      omega)
  · rw [h2]
    exact (subscaleCell_isSome v _ _).trans (by
      rw [show ((FACT_E_scoring.swb_cols.length : ℕ) : ℚ) = ((7 : ℕ) : ℚ) from rfl,
        half_gate_iff]
      omega)
  · rw [h4]
    exact (subscaleCell_isSome v _ _).trans (by
      rw [show ((FACT_E_scoring.fwb_cols.length : ℕ) : ℚ) = ((7 : ℕ) : ℚ) from rfl,
        half_gate_iff]
      omega)
  · rw [h3]
    exact (subscaleCell_isSome v _ _).trans (by
      rw [show ((FACT_E_scoring.ewb_cols.length : ℕ) : ℚ) = ((6 : ℕ) : ℚ) from rfl,
        half_gate_iff]
      omega)
  · rw [h5]
    exact (subscaleCell_isSome v _ _).trans (by
      rw [show ((FACT_E_scoring.ecs_cols.length : ℕ) : ℚ) = ((17 : ℕ) : ℚ) from rfl,
        half_gate_iff]
      omega)

/-- Claim C7.  Every subscale has at least one item, and for a respondent
with zero answered items on a subscale the subscale score is absent: the
`answered >= total/2` gate fails at `answered = 0`, so the prorated
division is never the delivered value and no division-by-zero result
reaches the output. -/
theorem claim_C7_zero_answered_absent (v : String → Cell) :
    (1 ≤ FACT_E_scoring.pwb_cols.length ∧ 1 ≤ FACT_E_scoring.swb_cols.length ∧
      1 ≤ FACT_E_scoring.ewb_cols.length ∧ 1 ≤ FACT_E_scoring.fwb_cols.length ∧
      1 ≤ FACT_E_scoring.ecs_cols.length) ∧
    (answeredCount v FACT_E_scoring.pwb_cols FACT_E_scoring.pwb_cols = 0 →
      lookupCell (FE_scored (dfFull v)) "pwb_subscale_score" = none) ∧
    (answeredCount v FACT_E_scoring.swb_cols [] = 0 →
      lookupCell (FE_scored (dfFull v)) "swb_subscale_score" = none) ∧
    (answeredCount v FACT_E_scoring.ewb_cols FACT_E_scoring.ewb_reverse_items = 0 →
      lookupCell (FE_scored (dfFull v)) "ewb_subscale_score" = none) ∧
    (answeredCount v FACT_E_scoring.fwb_cols [] = 0 →
      lookupCell (FE_scored (dfFull v)) "fwb_subscale_score" = none) ∧
    (answeredCount v FACT_E_scoring.ecs_cols FACT_E_scoring.ecs_reverse_items = 0 →
      lookupCell (FE_scored (dfFull v)) "ecs_subscale_score" = none) := by
  obtain ⟨_, h1, h2, h3, h4, h5, _, _, _, _⟩ := FE_scored_spec v
  refine ⟨⟨by decide, by decide, by decide, by decide, by decide⟩, ?_, ?_, ?_, ?_, ?_⟩
  all_goals intro h0
  · rw [h1]
    show subscaleCell v _ _ = none
    unfold subscaleCell
    rw [h0, if_neg (by norm_num [FACT_E_scoring.pwb_cols])]
  · rw [h2]
    show subscaleCell v _ _ = none
    unfold subscaleCell
    rw [h0, if_neg (by norm_num [FACT_E_scoring.swb_cols])]
  · rw [h3]
    show subscaleCell v _ _ = none
    unfold subscaleCell
    rw [h0, if_neg (by norm_num [FACT_E_scoring.ewb_cols])]
  · rw [h4]
    show subscaleCell v _ _ = none
    unfold subscaleCell
    rw [h0, if_neg (by norm_num [FACT_E_scoring.fwb_cols])]
  · rw [h5]
    show subscaleCell v _ _ = none
    unfold subscaleCell
    rw [h0, if_neg (by norm_num [FACT_E_scoring.ecs_cols])]

/-- Claim C7, witness: on the all-missing respondent every subscale has
zero answered items and the delivered subscale score is absent. -/
theorem claim_C7_witness :
    answeredCount vNone FACT_E_scoring.pwb_cols FACT_E_scoring.pwb_cols = 0 ∧
    lookupCell (FE_scored (dfFull vNone)) "pwb_subscale_score" = none :=
  ⟨by decide, (claim_C7_zero_answered_absent vNone).2.1 (by decide)⟩

/-- Claim C2.  For every respondent and every subscale, each answered
item's score column holds `4 - raw` when the item is reverse-scored and
`raw` otherwise, missing items stay missing, and whenever the
completeness gate passes the subscale score equals
`(sum of transformed non-missing items) * total / answered` with `total`
the subscale's fixed cardinality; in particular all-zero PWB answers
yield `pwb_subscale_score = 28`. -/
theorem claim_C2_transform_and_proration (v : String → Cell) :
    (∀ c ∈ FACT_E_scoring.fact_e_items,
      lookupCell (FE_scored (dfFull v)) (c ++ "_score")
        = (if all_reverse_items.contains c then (v c).map (fun x => (4 : ℚ) - x)
           else v c)) ∧
    (∀ c ∈ FACT_E_scoring.fact_e_items, v c = none →
      lookupCell (FE_scored (dfFull v)) (c ++ "_score") = none) ∧
    (lookupCell (FE_scored (dfFull v)) "pwb_subscale_score"
      = subscaleCell v FACT_E_scoring.pwb_cols FACT_E_scoring.pwb_cols) ∧
    (lookupCell (FE_scored (dfFull v)) "swb_subscale_score"
      = subscaleCell v FACT_E_scoring.swb_cols []) ∧
    (lookupCell (FE_scored (dfFull v)) "ewb_subscale_score"
      = subscaleCell v FACT_E_scoring.ewb_cols FACT_E_scoring.ewb_reverse_items) ∧
    (lookupCell (FE_scored (dfFull v)) "fwb_subscale_score"
      = subscaleCell v FACT_E_scoring.fwb_cols []) ∧
    (lookupCell (FE_scored (dfFull v)) "ecs_subscale_score"
      = subscaleCell v FACT_E_scoring.ecs_cols FACT_E_scoring.ecs_reverse_items) ∧
    ((answeredCount v FACT_E_scoring.pwb_cols FACT_E_scoring.pwb_cols : ℚ)
        ≥ (FACT_E_scoring.pwb_cols.length : ℚ) / 2 →
      lookupCell (FE_scored (dfFull v)) "pwb_subscale_score"
        = some ((answeredList v FACT_E_scoring.pwb_cols FACT_E_scoring.pwb_cols).sum
            * (FACT_E_scoring.pwb_cols.length : ℚ)
            / (answeredCount v FACT_E_scoring.pwb_cols FACT_E_scoring.pwb_cols : ℚ))) ∧
    ((answeredCount v FACT_E_scoring.swb_cols [] : ℚ)
        ≥ (FACT_E_scoring.swb_cols.length : ℚ) / 2 →
      lookupCell (FE_scored (dfFull v)) "swb_subscale_score"
        = some ((answeredList v FACT_E_scoring.swb_cols []).sum
            * (FACT_E_scoring.swb_cols.length : ℚ)
            / (answeredCount v FACT_E_scoring.swb_cols [] : ℚ))) ∧
    ((answeredCount v FACT_E_scoring.ewb_cols FACT_E_scoring.ewb_reverse_items : ℚ)
        ≥ (FACT_E_scoring.ewb_cols.length : ℚ) / 2 →
      lookupCell (FE_scored (dfFull v)) "ewb_subscale_score"
        = some ((answeredList v FACT_E_scoring.ewb_cols
              FACT_E_scoring.ewb_reverse_items).sum
            * (FACT_E_scoring.ewb_cols.length : ℚ)
            / (answeredCount v FACT_E_scoring.ewb_cols
                FACT_E_scoring.ewb_reverse_items : ℚ))) ∧
    ((answeredCount v FACT_E_scoring.fwb_cols [] : ℚ)
        ≥ (FACT_E_scoring.fwb_cols.length : ℚ) / 2 →
      lookupCell (FE_scored (dfFull v)) "fwb_subscale_score"
        = some ((answeredList v FACT_E_scoring.fwb_cols []).sum
            * (FACT_E_scoring.fwb_cols.length : ℚ)
            / (answeredCount v FACT_E_scoring.fwb_cols [] : ℚ))) ∧
    ((answeredCount v FACT_E_scoring.ecs_cols FACT_E_scoring.ecs_reverse_items : ℚ)
        ≥ (FACT_E_scoring.ecs_cols.length : ℚ) / 2 →
      lookupCell (FE_scored (dfFull v)) "ecs_subscale_score"
        = some ((answeredList v FACT_E_scoring.ecs_cols
              FACT_E_scoring.ecs_reverse_items).sum
            * (FACT_E_scoring.ecs_cols.length : ℚ)
            / (answeredCount v FACT_E_scoring.ecs_cols
                FACT_E_scoring.ecs_reverse_items : ℚ))) ∧
    lookupCell (FE_scored (dfFull vZero)) "pwb_subscale_score" = some 28 := by
  obtain ⟨_, h1, h2, h3, h4, h5, _, _, _, hs⟩ := FE_scored_spec v
  refine ⟨?_, ?_, h1, h2, h3, h4, h5, ?_, ?_, ?_, ?_, ?_, ?_⟩
  · intro c hc
    rw [hs c hc]
    rfl
  · intro c hc hnone
    rw [hs c hc]
    show transformCell all_reverse_items c (v c) = none
    unfold transformCell
    rw [hnone]
    split <;> rfl
  · intro hg
    rw [h1]
    show subscaleCell v _ _ = _
    unfold subscaleCell
    rw [if_pos hg]
  · intro hg
    rw [h2]
    show subscaleCell v _ _ = _
    unfold subscaleCell
    rw [if_pos hg]
  · intro hg
    rw [h3]
    show subscaleCell v _ _ = _
    unfold subscaleCell
    rw [if_pos hg]
  · intro hg
    rw [h4]
    show subscaleCell v _ _ = _
    unfold subscaleCell
    rw [if_pos hg]
  · intro hg
    rw [h5]
    show subscaleCell v _ _ = _
    unfold subscaleCell
    rw [if_pos hg]
  · rw [(FE_scored_spec vZero).2.1]
    show subscaleCell vZero _ _ = _
    norm_num [subscaleCell, answeredCount, answeredList, transformCell,
      FACT_E_scoring.pwb_cols, vZero, List.filterMap_cons, List.filterMap_nil]

/-- Claim C2, witness: on concrete respondents the reverse transform, the
missing-propagation and the prorated formula are exercised. -/
theorem claim_C2_witness :
    ("gp1" ∈ FACT_E_scoring.fact_e_items ∧
      lookupCell (FE_scored (dfFull vZero)) ("gp1" ++ "_score")
        = (if all_reverse_items.contains "gp1" then (vZero "gp1").map (fun x => (4 : ℚ) - x)
           else vZero "gp1")) ∧
    (vNone "gp1" = none ∧
      lookupCell (FE_scored (dfFull vNone)) ("gp1" ++ "_score") = none) ∧
    ((answeredCount vZero FACT_E_scoring.pwb_cols FACT_E_scoring.pwb_cols : ℚ)
        ≥ (FACT_E_scoring.pwb_cols.length : ℚ) / 2 ∧
      lookupCell (FE_scored (dfFull vZero)) "pwb_subscale_score"
        = some ((answeredList vZero FACT_E_scoring.pwb_cols FACT_E_scoring.pwb_cols).sum
            * (FACT_E_scoring.pwb_cols.length : ℚ)
            / (answeredCount vZero FACT_E_scoring.pwb_cols
                FACT_E_scoring.pwb_cols : ℚ))) := by
  have hg : (answeredCount vZero FACT_E_scoring.pwb_cols FACT_E_scoring.pwb_cols : ℚ)
      ≥ (FACT_E_scoring.pwb_cols.length : ℚ) / 2 := by
    norm_num [answeredCount, answeredList, transformCell, FACT_E_scoring.pwb_cols, vZero,
      List.filterMap_cons, List.filterMap_nil]
  exact ⟨⟨by decide, (claim_C2_transform_and_proration vZero).1 "gp1" (by decide)⟩,
    ⟨rfl, (claim_C2_transform_and_proration vNone).2.1 "gp1" (by decide) rfl⟩,
    ⟨hg, (claim_C2_transform_and_proration vZero).2.2.2.2.2.2.2.1 hg⟩⟩

/-- Claim C4.  Each composite (`fact_g_total`, `fact_e_total`, `toi`) is
present exactly when all its constituents are present and the answered
count over its item union meets the fixed ceiling threshold (22 of 27,
36 of 44, 25 of 31); when present it equals the arithmetic sum of its
constituents, and it is absent whenever any constituent is absent,
regardless of the threshold.  FACT-E's constituents are the
already-gated `fact_g_total` and the ECS subscale score. -/
theorem claim_C4_composite_gates (v : String → Cell) :
    (lookupCell (FE_scored (dfFull v)) "fact_g_total"
      = (if (pwbCell v).isSome = true ∧ (swbCell v).isSome = true ∧
            (ewbCell v).isSome = true ∧ (fwbCell v).isSome = true ∧
            22 ≤ unionAnswered v FACT_E_scoring.fact_g_items then
          addCell (addCell (addCell (pwbCell v) (swbCell v)) (ewbCell v)) (fwbCell v)
        else none)) ∧
    (lookupCell (FE_scored (dfFull v)) "fact_e_total"
      = (if (factGCell v).isSome = true ∧ (ecsCell v).isSome = true ∧
            36 ≤ unionAnswered v FACT_E_scoring.fact_e_items then
          addCell (factGCell v) (ecsCell v)
        else none)) ∧
    (lookupCell (FE_scored (dfFull v)) "toi"
      = (if (pwbCell v).isSome = true ∧ (fwbCell v).isSome = true ∧
            (ecsCell v).isSome = true ∧ 25 ≤ unionAnswered v FACT_E_scoring.toi_items then
          addCell (addCell (pwbCell v) (fwbCell v)) (ecsCell v)
        else none)) ∧
    ((lookupCell (FE_scored (dfFull v)) "fact_g_total").isSome = true ↔
      (pwbCell v).isSome = true ∧ (swbCell v).isSome = true ∧
        (ewbCell v).isSome = true ∧ (fwbCell v).isSome = true ∧
        22 ≤ unionAnswered v FACT_E_scoring.fact_g_items) ∧
    ((lookupCell (FE_scored (dfFull v)) "fact_e_total").isSome = true ↔
      (lookupCell (FE_scored (dfFull v)) "fact_g_total").isSome = true ∧
        (ecsCell v).isSome = true ∧ 36 ≤ unionAnswered v FACT_E_scoring.fact_e_items) ∧
    ((lookupCell (FE_scored (dfFull v)) "toi").isSome = true ↔
      (pwbCell v).isSome = true ∧ (fwbCell v).isSome = true ∧
        (ecsCell v).isSome = true ∧ 25 ≤ unionAnswered v FACT_E_scoring.toi_items) ∧
    (∀ a b c d : ℚ, pwbCell v = some a → swbCell v = some b → ewbCell v = some c →
      fwbCell v = some d → 22 ≤ unionAnswered v FACT_E_scoring.fact_g_items →
      lookupCell (FE_scored (dfFull v)) "fact_g_total" = some (a + b + c + d)) ∧
    (∀ x y : ℚ, lookupCell (FE_scored (dfFull v)) "fact_g_total" = some x →
      ecsCell v = some y → 36 ≤ unionAnswered v FACT_E_scoring.fact_e_items →
      lookupCell (FE_scored (dfFull v)) "fact_e_total" = some (x + y)) ∧
    (∀ a b c : ℚ, pwbCell v = some a → fwbCell v = some b → ecsCell v = some c →
      25 ≤ unionAnswered v FACT_E_scoring.toi_items →
      lookupCell (FE_scored (dfFull v)) "toi" = some (a + b + c)) ∧
    ((pwbCell v = none ∨ swbCell v = none ∨ ewbCell v = none ∨ fwbCell v = none) →
      lookupCell (FE_scored (dfFull v)) "fact_g_total" = none) ∧
    ((lookupCell (FE_scored (dfFull v)) "fact_g_total" = none ∨ ecsCell v = none) →
      lookupCell (FE_scored (dfFull v)) "fact_e_total" = none) ∧
    ((pwbCell v = none ∨ fwbCell v = none ∨ ecsCell v = none) →
      lookupCell (FE_scored (dfFull v)) "toi" = none) := by
  obtain ⟨_, _, _, _, _, _, h6, h7, h8, _⟩ := FE_scored_spec v
  refine ⟨by rw [h6]; rfl, by rw [h7]; rfl, by rw [h8]; rfl, ?_, ?_, ?_, ?_, ?_, ?_, ?_, ?_, ?_⟩
  · rw [h6]
    unfold factGCell
    by_cases hcond : (pwbCell v).isSome = true ∧ (swbCell v).isSome = true ∧
        (ewbCell v).isSome = true ∧ (fwbCell v).isSome = true ∧
        22 ≤ unionAnswered v FACT_E_scoring.fact_g_items
    · rw [if_pos hcond]
      simp [addCell_isSome, hcond.1, hcond.2.1, hcond.2.2.1, hcond.2.2.2.1, hcond]
    · rw [if_neg hcond]
      simp [hcond]
  · rw [h7, h6]
    unfold factECell
    by_cases hcond : (factGCell v).isSome = true ∧ (ecsCell v).isSome = true ∧
        36 ≤ unionAnswered v FACT_E_scoring.fact_e_items
    · rw [if_pos hcond]
      simp [addCell_isSome, hcond.1, hcond.2.1, hcond]
    · rw [if_neg hcond]
      simp [hcond]
  · rw [h8]
    unfold toiCell
    by_cases hcond : (pwbCell v).isSome = true ∧ (fwbCell v).isSome = true ∧
        (ecsCell v).isSome = true ∧ 25 ≤ unionAnswered v FACT_E_scoring.toi_items
    · rw [if_pos hcond]
      simp [addCell_isSome, hcond.1, hcond.2.1, hcond.2.2.1, hcond]
    · rw [if_neg hcond]
      simp [hcond]
  · intro a b c d ha hb hcc hd hT
    rw [h6]
    unfold factGCell
    rw [if_pos ⟨by rw [ha]; rfl, by rw [hb]; rfl, by rw [hcc]; rfl, by rw [hd]; rfl, hT⟩,
      ha, hb, hcc, hd]
    rfl
  · intro x y hx hy hT
    have hgx : factGCell v = some x := h6.symm.trans hx
    rw [h7]
    unfold factECell
    rw [if_pos ⟨by rw [hgx]; rfl, by rw [hy]; rfl, hT⟩, hgx, hy]
    rfl
  · intro a b c ha hb hcc hT
    rw [h8]
    unfold toiCell
    rw [if_pos ⟨by rw [ha]; rfl, by rw [hb]; rfl, by rw [hcc]; rfl, hT⟩, ha, hb, hcc]
    rfl
  · intro hdisj
    rw [h6]
    unfold factGCell
    rw [if_neg]
    intro hcond
    rcases hdisj with h | h | h | h
    · rw [h] at hcond; simp at hcond
    · rw [h] at hcond; simp at hcond
    · rw [h] at hcond; simp at hcond
    · rw [h] at hcond; simp at hcond
  · intro hdisj
    rw [h7]
    unfold factECell
    rw [if_neg]
    intro hcond
    rcases hdisj with h | h
    · rw [h6] at h; rw [h] at hcond; simp at hcond
    · rw [h] at hcond; simp at hcond
  · intro hdisj
    rw [h8]
    unfold toiCell
    rw [if_neg]
    intro hcond
    rcases hdisj with h | h | h
    · rw [h] at hcond; simp at hcond
    · rw [h] at hcond; simp at hcond
    · rw [h] at hcond; simp at hcond

/-- Claim C4, witness: the all-zero respondent has all four FACT-G
subscales present, 27 of 27 items answered, and
`fact_g_total = 28 + 0 + 20 + 0`; the all-missing respondent has an
absent PWB constituent and an absent `fact_g_total`. -/
theorem claim_C4_witness :
    (pwbCell vZero = some 28 ∧ swbCell vZero = some 0 ∧ ewbCell vZero = some 20 ∧
      fwbCell vZero = some 0 ∧ 22 ≤ unionAnswered vZero FACT_E_scoring.fact_g_items ∧
      lookupCell (FE_scored (dfFull vZero)) "fact_g_total" = some (28 + 0 + 20 + 0)) ∧
    (pwbCell vNone = none ∧
      lookupCell (FE_scored (dfFull vNone)) "fact_g_total" = none) := by
  have hp : pwbCell vZero = some 28 := by
    norm_num [pwbCell, subscaleCell, answeredCount, answeredList, transformCell,
      FACT_E_scoring.pwb_cols, vZero, List.filterMap_cons, List.filterMap_nil]
  have hsw : swbCell vZero = some 0 := by
    norm_num [swbCell, subscaleCell, answeredCount, answeredList, transformCell,
      FACT_E_scoring.swb_cols, vZero, List.filterMap_cons, List.filterMap_nil]
  have hew : ewbCell vZero = some 20 := by
    simp +decide [ewbCell, subscaleCell, answeredCount, answeredList, transformCell,
      FACT_E_scoring.ewb_cols, FACT_E_scoring.ewb_reverse_items, vZero,
      List.filterMap_cons, List.filterMap_nil]
    norm_num
  have hfw : fwbCell vZero = some 0 := by
    norm_num [fwbCell, subscaleCell, answeredCount, answeredList, transformCell,
      FACT_E_scoring.fwb_cols, vZero, List.filterMap_cons, List.filterMap_nil]
  have hpn : pwbCell vNone = none := by
    norm_num [pwbCell, subscaleCell, answeredCount, answeredList, transformCell,
      FACT_E_scoring.pwb_cols, vNone, List.filterMap_cons, List.filterMap_nil]
  exact ⟨⟨hp, hsw, hew, hfw, by decide,
      (claim_C4_composite_gates vZero).2.2.2.2.2.2.1 28 0 20 0 hp hsw hew hfw (by decide)⟩,
    ⟨hpn, (claim_C4_composite_gates vNone).2.2.2.2.2.2.2.2.2.1 (Or.inl hpn)⟩⟩

/-- Claim C5.  `fact_e_total` composes from the already-gated
`fact_g_total` and the ECS subscale score under a two-level gate: it is
present exactly when `fact_g_total` is present (which itself requires
the four FACT-G subscales present and 22 of 27 items answered), the ECS
score is present, and at least 36 of the 44 FACT-E union items are
answered; when present, `fact_e_total = fact_g_total + ecs`. -/
theorem claim_C5_two_level_gate (v : String → Cell) :
    ((lookupCell (FE_scored (dfFull v)) "fact_e_total").isSome = true ↔
      (lookupCell (FE_scored (dfFull v)) "fact_g_total").isSome = true ∧
        (ecsCell v).isSome = true ∧ 36 ≤ unionAnswered v FACT_E_scoring.fact_e_items) ∧
    ((lookupCell (FE_scored (dfFull v)) "fact_g_total").isSome = true ↔
      (pwbCell v).isSome = true ∧ (swbCell v).isSome = true ∧
        (ewbCell v).isSome = true ∧ (fwbCell v).isSome = true ∧
        22 ≤ unionAnswered v FACT_E_scoring.fact_g_items) ∧
    (∀ x y : ℚ, lookupCell (FE_scored (dfFull v)) "fact_g_total" = some x →
      ecsCell v = some y → 36 ≤ unionAnswered v FACT_E_scoring.fact_e_items →
      lookupCell (FE_scored (dfFull v)) "fact_e_total" = some (x + y)) := by
  obtain ⟨_, _, _, _, _, _, h6, h7, _, _⟩ := FE_scored_spec v
  refine ⟨?_, ?_, ?_⟩
  · rw [h7, h6]
    unfold factECell
    by_cases hcond : (factGCell v).isSome = true ∧ (ecsCell v).isSome = true ∧
        36 ≤ unionAnswered v FACT_E_scoring.fact_e_items
    · rw [if_pos hcond]
      simp [addCell_isSome, hcond.1, hcond.2.1, hcond]
    · rw [if_neg hcond]
      simp [hcond]
  · rw [h6]
    unfold factGCell
    by_cases hcond : (pwbCell v).isSome = true ∧ (swbCell v).isSome = true ∧
        (ewbCell v).isSome = true ∧ (fwbCell v).isSome = true ∧
        22 ≤ unionAnswered v FACT_E_scoring.fact_g_items
    · rw [if_pos hcond]
      simp [addCell_isSome, hcond.1, hcond.2.1, hcond.2.2.1, hcond.2.2.2.1, hcond]
    · rw [if_neg hcond]
      simp [hcond]
  · intro x y hx hy hT
    have hgx : factGCell v = some x := h6.symm.trans hx
    rw [h7]
    unfold factECell
    rw [if_pos ⟨by rw [hgx]; rfl, by rw [hy]; rfl, hT⟩, hgx, hy]
    rfl

/-- Claim C5, witness: for the all-zero respondent, `fact_g_total` is
present with value 48, the ECS score is present with value 40, all 44
items are answered, and `fact_e_total = 48 + 40`. -/
theorem claim_C5_witness :
    lookupCell (FE_scored (dfFull vZero)) "fact_g_total" = some 48 ∧
    ecsCell vZero = some 40 ∧ 36 ≤ unionAnswered vZero FACT_E_scoring.fact_e_items ∧
    lookupCell (FE_scored (dfFull vZero)) "fact_e_total" = some (48 + 40) := by
  have hp : pwbCell vZero = some 28 := by
    norm_num [pwbCell, subscaleCell, answeredCount, answeredList, transformCell,
      FACT_E_scoring.pwb_cols, vZero, List.filterMap_cons, List.filterMap_nil]
  have hsw : swbCell vZero = some 0 := by
    norm_num [swbCell, subscaleCell, answeredCount, answeredList, transformCell,
      FACT_E_scoring.swb_cols, vZero, List.filterMap_cons, List.filterMap_nil]
  have hew : ewbCell vZero = some 20 := by
    simp +decide [ewbCell, subscaleCell, answeredCount, answeredList, transformCell,
      FACT_E_scoring.ewb_cols, FACT_E_scoring.ewb_reverse_items, vZero,
      List.filterMap_cons, List.filterMap_nil]
    norm_num
  have hfw : fwbCell vZero = some 0 := by
    norm_num [fwbCell, subscaleCell, answeredCount, answeredList, transformCell,
      FACT_E_scoring.fwb_cols, vZero, List.filterMap_cons, List.filterMap_nil]
  have hec : ecsCell vZero = some 40 := by
    simp +decide [ecsCell, subscaleCell, answeredCount, answeredList, transformCell,
      FACT_E_scoring.ecs_cols, FACT_E_scoring.ecs_reverse_items, vZero,
      List.filterMap_cons, List.filterMap_nil]
    norm_num
  have hfgcell : factGCell vZero = some 48 := by
    unfold factGCell
    rw [if_pos ⟨by rw [hp]; rfl, by rw [hsw]; rfl, by rw [hew]; rfl, by rw [hfw]; rfl,
      by decide⟩, hp, hsw, hew, hfw]
    norm_num [addCell]
  have hfg : lookupCell (FE_scored (dfFull vZero)) "fact_g_total" = some 48 := by
    rw [(FE_scored_spec vZero).2.2.2.2.2.2.1, hfgcell]
  exact ⟨hfg, hec, by decide,
    (claim_C5_two_level_gate vZero).2.2 48 40 hfg hec (by decide)⟩

/-- Claim C6.  In the FACT-G module, for a respondent whose four
subscale scores are all present: with exactly 22 of the 27 items
answered, `fact_g_total` is present and equals the sum of the four
subscale scores; with only 20 of 27 answered, `fact_g_total` is absent
even though every per-subscale half gate can pass. -/
theorem claim_C6_union_gate_scenarios :
    (∀ v : String → Cell, (pwbCell v).isSome = true → (swbCell v).isSome = true →
      (ewbCell v).isSome = true → (fwbCell v).isSome = true →
      unionAnswered v FACT_E_scoring.fact_g_items = 22 →
      lookupCell (FG_scored (dfFullG v)) "fact_g_total"
        = addCell (addCell (addCell (pwbCell v) (swbCell v)) (ewbCell v)) (fwbCell v) ∧
      (lookupCell (FG_scored (dfFullG v)) "fact_g_total").isSome = true) ∧
    (∀ v : String → Cell, (pwbCell v).isSome = true → (swbCell v).isSome = true →
      (ewbCell v).isSome = true → (fwbCell v).isSome = true →
      unionAnswered v FACT_E_scoring.fact_g_items = 20 →
      lookupCell (FG_scored (dfFullG v)) "fact_g_total" = none) := by
  constructor
  · intro v hp hs he hf h22
    obtain ⟨_, _, _, _, _, h5⟩ := FG_scored_spec v
    constructor
    · rw [h5]
      unfold factGCell
      rw [if_pos ⟨hp, hs, he, hf, by omega⟩]
    · rw [h5]
      unfold factGCell
      rw [if_pos ⟨hp, hs, he, hf, by omega⟩]
      simp [addCell_isSome, hp, hs, he, hf]
  · intro v hp hs he hf h20
    obtain ⟨_, _, _, _, _, h5⟩ := FG_scored_spec v
    rw [h5]
    unfold factGCell
    rw [if_neg]
    intro hcond
    have := hcond.2.2.2.2
    omega

/-- Claim C6, witness: two concrete respondents (22 of 27 answered, and
20 of 27 answered, each with every per-subscale half gate passing)
exhibit the present and the absent `fact_g_total`. -/
theorem claim_C6_witness :
    (unionAnswered v22 FACT_E_scoring.fact_g_items = 22 ∧
      lookupCell (FG_scored (dfFullG v22)) "fact_g_total"
        = addCell (addCell (addCell (pwbCell v22) (swbCell v22)) (ewbCell v22))
            (fwbCell v22) ∧
      (lookupCell (FG_scored (dfFullG v22)) "fact_g_total").isSome = true) ∧
    (unionAnswered v20 FACT_E_scoring.fact_g_items = 20 ∧
      lookupCell (FG_scored (dfFullG v20)) "fact_g_total" = none) := by
  have hp22 : (pwbCell v22).isSome = true := (subscaleCell_isSome v22 _ _).mpr (by
    rw [show answeredCount v22 FACT_E_scoring.pwb_cols FACT_E_scoring.pwb_cols = 6
      from by decide]
    norm_num [FACT_E_scoring.pwb_cols])
  have hs22 : (swbCell v22).isSome = true := (subscaleCell_isSome v22 _ _).mpr (by
    rw [show answeredCount v22 FACT_E_scoring.swb_cols [] = 6 from by decide]
    norm_num [FACT_E_scoring.swb_cols])
  have he22 : (ewbCell v22).isSome = true := (subscaleCell_isSome v22 _ _).mpr (by
    rw [show answeredCount v22 FACT_E_scoring.ewb_cols FACT_E_scoring.ewb_reverse_items
      = 5 from by decide]
    norm_num [FACT_E_scoring.ewb_cols])
  have hf22 : (fwbCell v22).isSome = true := (subscaleCell_isSome v22 _ _).mpr (by
    rw [show answeredCount v22 FACT_E_scoring.fwb_cols [] = 5 from by decide]
    norm_num [FACT_E_scoring.fwb_cols])
  have hp20 : (pwbCell v20).isSome = true := (subscaleCell_isSome v20 _ _).mpr (by
    rw [show answeredCount v20 FACT_E_scoring.pwb_cols FACT_E_scoring.pwb_cols = 5
      from by decide]
    norm_num [FACT_E_scoring.pwb_cols])
  have hs20 : (swbCell v20).isSome = true := (subscaleCell_isSome v20 _ _).mpr (by
    rw [show answeredCount v20 FACT_E_scoring.swb_cols [] = 5 from by decide]
    norm_num [FACT_E_scoring.swb_cols])
  have he20 : (ewbCell v20).isSome = true := (subscaleCell_isSome v20 _ _).mpr (by
    rw [show answeredCount v20 FACT_E_scoring.ewb_cols FACT_E_scoring.ewb_reverse_items
      = 4 from by decide]
    norm_num [FACT_E_scoring.ewb_cols])
  have hf20 : (fwbCell v20).isSome = true := (subscaleCell_isSome v20 _ _).mpr (by
    rw [show answeredCount v20 FACT_E_scoring.fwb_cols [] = 6 from by decide]
    norm_num [FACT_E_scoring.fwb_cols])
  have h1 := claim_C6_union_gate_scenarios.1 v22 hp22 hs22 he22 hf22 (by decide)
  have h2 := claim_C6_union_gate_scenarios.2 v20 hp20 hs20 he20 hf20 (by decide)
  exact ⟨⟨by decide, h1.1, h1.2⟩, ⟨by decide, h2⟩⟩

/-- Claim C9, counterexample.  The claim asserts that on every input
table containing the `gp`, `gs`, `ge`, `gf` item columns, the two
modules compute identical values for the shared output columns.  On
`dfG_only`, a table that holds the identifier and all 27 FACT-G item
columns but no ECS column, the FACT-G module succeeds while the FACT-E
module raises `KeyError("a_hn1")` and computes no values at all, so the
claim fails as stated. -/
theorem claim_C9_counterexample :
    FACT_E_scoring.fact_g_items.all (fun c => hasCol dfG_only c) = true ∧
    (FACT_G_scoring.calculate_fact_g_scores dfG_only).isOk = true ∧
    FACT_E_scoring.calculate_fact_e_scores dfG_only = .error "a_hn1" := by
  refine ⟨by decide, ?_, calculate_fact_e_scores_error_of_no_ecs vZero⟩
  obtain ⟨out, run, _⟩ := calculate_fact_g_scores_spec dfG_only (by
    intro c hc
    rw [show dfG_only = mkRow vZero FACT_G_scoring.columns_to_extract from rfl,
      hasCol_mkRow]
    exact (by decide : ∀ c ∈ FACT_E_scoring.fact_g_items,
      FACT_G_scoring.columns_to_extract.contains c = true) c hc)
  rw [run]
  rfl

/-- Claim C9, amended.  On every input table containing the `gp`, `gs`,
`ge`, `gf` AND all 17 ECS item columns, both modules succeed and compute
identical values for the four well-being subscale score columns and for
`fact_g_total`. -/
theorem claim_C9_amended_shared_outputs (df : DF)
    (hpres : ∀ c ∈ FACT_E_scoring.fact_e_items, hasCol df c = true) :
    (FACT_G_scoring.calculate_fact_g_scores df).isOk = true ∧
    (FACT_E_scoring.calculate_fact_e_scores df).isOk = true ∧
    ∀ c ∈ (["pwb_subscale_score", "swb_subscale_score", "ewb_subscale_score",
      "fwb_subscale_score", "fact_g_total"] : List String),
      lookupCell (FG_scored df) c = lookupCell (FE_scored df) c := by
  have hG : ∀ c ∈ FACT_E_scoring.fact_g_items, hasCol df c = true := by
    intro c hc
    exact hpres c ((by decide : ∀ c ∈ FACT_E_scoring.fact_g_items,
      c ∈ FACT_E_scoring.fact_e_items) c hc)
  obtain ⟨outG, runG, g1, g2, g3, g4, g5, _, _⟩ := calculate_fact_g_scores_spec df hG
  obtain ⟨outE, runE, e1, e2, e3, e4, _, e6, _, _, _, _⟩ :=
    calculate_fact_e_scores_spec df hpres
  have hFG : FG_scored df = outG := by unfold FG_scored; rw [runG]; rfl
  have hFE : FE_scored df = outE := by unfold FE_scored; rw [runE]; rfl
  refine ⟨by rw [runG]; rfl, by rw [runE]; rfl, ?_⟩
  intro c hc
  rw [hFG, hFE]
  fin_cases hc
  · rw [g1, e1]
  · rw [g2, e2]
  · rw [g3, e3]
  · rw [g4, e4]
  · rw [g5, e6]

/-- Claim C9, witness: on the all-zero 44-item table both modules
succeed and agree on `fact_g_total`. -/
theorem claim_C9_witness :
    (FACT_G_scoring.calculate_fact_g_scores (dfFull vZero)).isOk = true ∧
    (FACT_E_scoring.calculate_fact_e_scores (dfFull vZero)).isOk = true ∧
    lookupCell (FG_scored (dfFull vZero)) "fact_g_total"
      = lookupCell (FE_scored (dfFull vZero)) "fact_g_total" := by
  have hpres : ∀ c ∈ FACT_E_scoring.fact_e_items, hasCol (dfFull vZero) c = true := by
    intro c hc
    rw [show dfFull vZero = mkRow vZero FACT_E_scoring.columns_to_extract from rfl,
      hasCol_mkRow]
    exact (by decide : ∀ c ∈ FACT_E_scoring.fact_e_items,
      FACT_E_scoring.columns_to_extract.contains c = true) c hc
  have h := claim_C9_amended_shared_outputs (dfFull vZero) hpres
  exact ⟨h.1, h.2.1, h.2.2 "fact_g_total" (by decide)⟩

/-- Claim C10.  When every non-missing raw item value lies in `[0, 4]`,
every present subscale score lies in `[0, 4 * total]` — PWB, SWB, FWB in
`[0, 28]`, EWB in `[0, 24]`, ECS in `[0, 68]` — and every present
composite lies within the sum of its constituents' ranges:
`fact_g_total` in `[0, 108]`, `fact_e_total` in `[0, 176]`, `toi` in
`[0, 124]`. -/
theorem claim_C10_score_ranges (v : String → Cell)
    (h : ∀ c ∈ FACT_E_scoring.fact_e_items, ∀ x : ℚ, v c = some x → 0 ≤ x ∧ x ≤ 4) :
    (∀ y : ℚ, lookupCell (FE_scored (dfFull v)) "pwb_subscale_score" = some y →
      0 ≤ y ∧ y ≤ 28) ∧
    (∀ y : ℚ, lookupCell (FE_scored (dfFull v)) "swb_subscale_score" = some y →
      0 ≤ y ∧ y ≤ 28) ∧
    (∀ y : ℚ, lookupCell (FE_scored (dfFull v)) "ewb_subscale_score" = some y →
      0 ≤ y ∧ y ≤ 24) ∧
    (∀ y : ℚ, lookupCell (FE_scored (dfFull v)) "fwb_subscale_score" = some y →
      0 ≤ y ∧ y ≤ 28) ∧
    (∀ y : ℚ, lookupCell (FE_scored (dfFull v)) "ecs_subscale_score" = some y →
      0 ≤ y ∧ y ≤ 68) ∧
    (∀ y : ℚ, lookupCell (FE_scored (dfFull v)) "fact_g_total" = some y →
      0 ≤ y ∧ y ≤ 108) ∧
    (∀ y : ℚ, lookupCell (FE_scored (dfFull v)) "fact_e_total" = some y →
      0 ≤ y ∧ y ≤ 176) ∧
    (∀ y : ℚ, lookupCell (FE_scored (dfFull v)) "toi" = some y →
      0 ≤ y ∧ y ≤ 124) := by
  have hP : ∀ c ∈ FACT_E_scoring.pwb_cols, ∀ x : ℚ, v c = some x → 0 ≤ x ∧ x ≤ 4 :=
    fun c hc => h c ((by decide : ∀ c ∈ FACT_E_scoring.pwb_cols,
      c ∈ FACT_E_scoring.fact_e_items) c hc)
  have hS : ∀ c ∈ FACT_E_scoring.swb_cols, ∀ x : ℚ, v c = some x → 0 ≤ x ∧ x ≤ 4 :=
    fun c hc => h c ((by decide : ∀ c ∈ FACT_E_scoring.swb_cols,
      c ∈ FACT_E_scoring.fact_e_items) c hc)
  have hE : ∀ c ∈ FACT_E_scoring.ewb_cols, ∀ x : ℚ, v c = some x → 0 ≤ x ∧ x ≤ 4 :=
    fun c hc => h c ((by decide : ∀ c ∈ FACT_E_scoring.ewb_cols,
      c ∈ FACT_E_scoring.fact_e_items) c hc)
  have hF : ∀ c ∈ FACT_E_scoring.fwb_cols, ∀ x : ℚ, v c = some x → 0 ≤ x ∧ x ≤ 4 :=
    fun c hc => h c ((by decide : ∀ c ∈ FACT_E_scoring.fwb_cols,
      c ∈ FACT_E_scoring.fact_e_items) c hc)
  have hC : ∀ c ∈ FACT_E_scoring.ecs_cols, ∀ x : ℚ, v c = some x → 0 ≤ x ∧ x ≤ 4 :=
    fun c hc => h c ((by decide : ∀ c ∈ FACT_E_scoring.ecs_cols,
      c ∈ FACT_E_scoring.fact_e_items) c hc)
  have hPb : ∀ y : ℚ, pwbCell v = some y → 0 ≤ y ∧ y ≤ 28 := by
    intro y hy
    have hb := subscaleCell_bounds v _ _ hP y hy
    refine ⟨hb.1, ?_⟩
    have h2 := hb.2
    norm_num [FACT_E_scoring.pwb_cols] at h2
    linarith
  have hSb : ∀ y : ℚ, swbCell v = some y → 0 ≤ y ∧ y ≤ 28 := by
    intro y hy
    have hb := subscaleCell_bounds v _ _ hS y hy
    refine ⟨hb.1, ?_⟩
    have h2 := hb.2
    norm_num [FACT_E_scoring.swb_cols] at h2
    linarith
  have hEb : ∀ y : ℚ, ewbCell v = some y → 0 ≤ y ∧ y ≤ 24 := by
    intro y hy
    have hb := subscaleCell_bounds v _ _ hE y hy
    refine ⟨hb.1, ?_⟩
    have h2 := hb.2
    norm_num [FACT_E_scoring.ewb_cols] at h2
    linarith
  have hFb : ∀ y : ℚ, fwbCell v = some y → 0 ≤ y ∧ y ≤ 28 := by
    intro y hy
    have hb := subscaleCell_bounds v _ _ hF y hy
    refine ⟨hb.1, ?_⟩
    have h2 := hb.2
    norm_num [FACT_E_scoring.fwb_cols] at h2
    linarith
  have hCb : ∀ y : ℚ, ecsCell v = some y → 0 ≤ y ∧ y ≤ 68 := by
    intro y hy
    have hb := subscaleCell_bounds v _ _ hC y hy
    refine ⟨hb.1, ?_⟩
    have h2 := hb.2
    norm_num [FACT_E_scoring.ecs_cols] at h2
    linarith
  have hGb : ∀ y : ℚ, factGCell v = some y → 0 ≤ y ∧ y ≤ 108 := by
    intro y hy
    obtain ⟨a, b, c, d, ha, hb, hcc, hd, rfl⟩ := factGCell_some v y hy
    have h1 := hPb a ha
    have h2 := hSb b hb
    have h3 := hEb c hcc
    have h4 := hFb d hd
    constructor <;> linarith [h1.1, h1.2, h2.1, h2.2, h3.1, h3.2, h4.1, h4.2]
  have hEtb : ∀ y : ℚ, factECell v = some y → 0 ≤ y ∧ y ≤ 176 := by
    intro y hy
    obtain ⟨a, b, ha, hb, rfl⟩ := factECell_some v y hy
    have h1 := hGb a ha
    have h2 := hCb b hb
    constructor <;> linarith [h1.1, h1.2, h2.1, h2.2]
  have hTb : ∀ y : ℚ, toiCell v = some y → 0 ≤ y ∧ y ≤ 124 := by
    intro y hy
    obtain ⟨a, b, c, ha, hb, hcc, rfl⟩ := toiCell_some v y hy
    have h1 := hPb a ha
    have h2 := hFb b hb
    have h3 := hCb c hcc
    constructor <;> linarith [h1.1, h1.2, h2.1, h2.2, h3.1, h3.2]
  obtain ⟨_, e1, e2, e3, e4, e5, e6, e7, e8, _, _⟩ := calculate_fact_e_scores_spec
    (dfFull v) (by
      intro c hc
      rw [show dfFull v = mkRow v FACT_E_scoring.columns_to_extract from rfl, hasCol_mkRow]
      exact (by decide : ∀ c ∈ FACT_E_scoring.fact_e_items,
        FACT_E_scoring.columns_to_extract.contains c = true) c hc)
  refine ⟨?_, ?_, ?_, ?_, ?_, ?_, ?_, ?_⟩
  all_goals intro y hy
  · rw [(FE_scored_spec v).2.1] at hy; exact hPb y hy
  · rw [(FE_scored_spec v).2.2.1] at hy; exact hSb y hy
  · rw [(FE_scored_spec v).2.2.2.1] at hy; exact hEb y hy
  · rw [(FE_scored_spec v).2.2.2.2.1] at hy; exact hFb y hy
  · rw [(FE_scored_spec v).2.2.2.2.2.1] at hy; exact hCb y hy
  · rw [(FE_scored_spec v).2.2.2.2.2.2.1] at hy; exact hGb y hy
  · rw [(FE_scored_spec v).2.2.2.2.2.2.2.1] at hy; exact hEtb y hy
  · rw [(FE_scored_spec v).2.2.2.2.2.2.2.2.1] at hy; exact hTb y hy

/-- Claim C10, witness: the all-zero respondent satisfies the range
hypothesis and the present PWB score 28 lies in `[0, 28]`. -/
theorem claim_C10_witness :
    lookupCell (FE_scored (dfFull vZero)) "pwb_subscale_score" = some 28 ∧
    (0 ≤ (28 : ℚ) ∧ (28 : ℚ) ≤ 28) := by
  have hval : ∀ c ∈ FACT_E_scoring.fact_e_items, ∀ x : ℚ, vZero c = some x →
      0 ≤ x ∧ x ≤ 4 := by
    intro c _ x hx
    rw [show vZero c = some 0 from rfl, Option.some.injEq] at hx
    subst hx
    norm_num
  have hlook : lookupCell (FE_scored (dfFull vZero)) "pwb_subscale_score" = some 28 := by
    rw [(FE_scored_spec vZero).2.1]
    norm_num [pwbCell, subscaleCell, answeredCount, answeredList, transformCell,
      FACT_E_scoring.pwb_cols, vZero, List.filterMap_cons, List.filterMap_nil]
  exact ⟨hlook, (claim_C10_score_ranges vZero hval).1 28 hlook⟩

/-- Claim C8.  The scoring computation is a function of the raw item
values, and the pipeline is idempotent: when extraction followed by
scoring succeeds, re-running it on its own output (whose identifier and
raw item columns are untouched; derived columns are dropped by
extraction and recomputed) returns the very same scored table. -/
theorem claim_C8_idempotent (df out : DF)
    (h : FACT_E_scoring.run_scoring df = .ok out) :
    FACT_E_scoring.run_scoring out = .ok out := by
  have hpres := calculate_fact_e_scores_ok_presence
    (FACT_E_scoring.extract_fact_e_columns df) out h
  obtain ⟨outx, runx, _, _, _, _, _, _, _, _, _, keepx⟩ :=
    calculate_fact_e_scores_spec (FACT_E_scoring.extract_fact_e_columns df) hpres
  have hout : outx = out := Except.ok.inj (runx.symm.trans h)
  subst hout
  have hcte7 : ∀ c ∈ FACT_E_scoring.columns_to_extract, c.length ≤ 7 := by decide
  have hlen3 : ∀ c ∈ FACT_E_scoring.fact_e_items, 3 ≤ c.length := by decide
  have hcteOut : ∀ c ∈ FACT_E_scoring.columns_to_extract, c ∉ output_names := by decide
  have hcteNW : ∀ c ∈ FACT_E_scoring.columns_to_extract, c ∉ written_names := by
    intro c hc hmem
    rcases List.mem_append.mp hmem with hm | hm
    · obtain ⟨c0, hc0, he⟩ := List.mem_map.mp hm
      exact ne_append_score_of_short
        (by have h1 := hcte7 c hc; have h2 := hlen3 c0 hc0; omega) he.symm
    · exact hcteOut c hc hm
  have hfil : FACT_E_scoring.columns_to_extract.filter (fun c => hasCol outx c)
      = FACT_E_scoring.columns_to_extract.filter
          (fun c => hasCol (FACT_E_scoring.extract_fact_e_columns df) c) :=
    List.filter_congr (fun c hc => (keepx c (hcteNW c hc)).2)
  have hext : FACT_E_scoring.extract_fact_e_columns outx
      = FACT_E_scoring.extract_fact_e_columns
          (FACT_E_scoring.extract_fact_e_columns df) := by
    show mkRow (fun c => lookupCell outx c)
        (FACT_E_scoring.columns_to_extract.filter (fun c => hasCol outx c))
      = mkRow (fun c => lookupCell (FACT_E_scoring.extract_fact_e_columns df) c)
        (FACT_E_scoring.columns_to_extract.filter
          (fun c => hasCol (FACT_E_scoring.extract_fact_e_columns df) c))
    rw [hfil]
    exact mkRow_congr _ _ _ (fun c hc =>
      (keepx c (hcteNW c (List.mem_filter.mp hc).1)).1)
  show FACT_E_scoring.calculate_fact_e_scores
    (FACT_E_scoring.extract_fact_e_columns outx) = .ok outx
  rw [hext, extract_extract]
  exact h

/-- Claim C8, witness: on the fully answered all-zero table the pipeline
succeeds, and re-running it on the scored output reproduces it. -/
theorem claim_C8_witness :
    FACT_E_scoring.run_scoring df0 = .ok out0 ∧
    FACT_E_scoring.run_scoring out0 = .ok out0 := by
  have h : FACT_E_scoring.run_scoring df0 = .ok out0 := by
    show FACT_E_scoring.calculate_fact_e_scores
      (FACT_E_scoring.extract_fact_e_columns df0) = .ok out0
    rw [show FACT_E_scoring.extract_fact_e_columns df0 = df0 from rfl]
    exact (FE_scored_spec vZero).1
  exact ⟨h, claim_C8_idempotent df0 out0 h⟩
